import Mathlib

/-!
# AX-MediaPlayer DXGI render path: embedding and verification

Shallow embedding of `src/blocks/AX-MediaPlayer/src/msw/AX-MediaPlayerMSWDXGIRenderPath.cxx`.

* Every platform call (Direct3D, Media Foundation, WGL_NV_DX_interop, the media engine) is an
  oracle of the environment `Env`.  An oracle receives the number of calls logged so far and
  the arguments of the call, so every pattern of success and failure can be scripted.
* The mutable process state is a `World`: the call log, the `kInteropContext` singleton, and
  the heap of live `SharedTexture` objects (address ↦ object).
* `assert` aborts in debug builds (`NDEBUG = false`) and is skipped otherwise; a member access
  through a null or dangling pointer is the fault `nullDeref`.
-/

namespace AX.Video

/-- A Win32 `HANDLE` (or raw pointer value); `0` is `nullptr`. -/
abbrev HANDLE := Nat

/-- A 64-bit signed media time; it is only stored and compared, never computed with. -/
abbrev LONGLONG := Int

/-- The `ci::ivec2` of the source: two `int` components. -/
structure ivec2 where
  x : Int
  y : Int
deriving DecidableEq, Repr

/-- The ways a call can fail to return. -/
inductive Fault where
  | assertion
  | nullDeref
deriving DecidableEq, Repr

/-- Platform header constants used by the source. -/
def D3D11_CREATE_DEVICE_DEBUG : Nat := 0x2
def D3D11_CREATE_DEVICE_BGRA_SUPPORT : Nat := 0x20
def D3D11_CREATE_DEVICE_VIDEO_SUPPORT : Nat := 0x800
def DXGI_FORMAT_B8G8R8A8_UNORM : Nat := 87
def D3D11_BIND_RENDER_TARGET : Nat := 0x20
def D3D11_USAGE_DEFAULT : Nat := 0
def GL_RGBA : Nat := 0x1908

/-- The fields of `D3D11_TEXTURE2D_DESC` that the source sets; `Width`/`Height` are `UINT`. -/
structure D3D11_TEXTURE2D_DESC where
  Width : Nat := 0
  Height : Nat := 0
  MipLevels : Nat := 0
  ArraySize : Nat := 0
  Format : Nat := 0
  SampleDescCount : Nat := 0
  SampleDescQuality : Nat := 0
  Usage : Nat := 0
  BindFlags : Nat := 0
deriving DecidableEq, Repr

/-- An `ID3D11Texture2D` as seen by the source: its pointer and the descriptor it was made from. -/
structure DXTexture where
  ptr : Nat
  desc : D3D11_TEXTURE2D_DESC
deriving DecidableEq, Repr

/-- A `ci::gl::Texture` as seen by the source: GL name, dimensions and creation format. -/
structure GLTexture where
  id : Nat
  width : Int
  height : Int
  internalFormat : Nat
  loadTopDown : Bool
deriving DecidableEq, Repr

/-- The `RECT` handed to the media engine as destination rectangle. -/
structure RECT where
  left : Int
  top : Int
  right : Int
  bottom : Int
deriving DecidableEq, Repr

/-- Everything that is logged: one entry per platform call, plus one entry on entering the
`InteropContext` constructor, `CreateSharedTexture`, `Lock` and `Unlock`. -/
inductive Event where
  | InteropContext_ctor
  | MFCreateDXGIDeviceManager
  | D3D11CreateDevice (flags : Nat)
  | QueryInterface (device : Nat)
  | SetMultithreadProtected (device : Nat)
  | ResetDevice (manager device token : Nat)
  | wglDXOpenDeviceNV (device : Nat)
  | CreateSharedTexture (size : ivec2)
  | CreateTexture2D (device : Nat) (desc : D3D11_TEXTURE2D_DESC)
  | glTextureCreate (width height : Int)
  | wglDXRegisterObjectNV (hDevice : HANDLE) (dx gl : Nat)
  | Lock (texture : Nat)
  | Unlock (texture : Nat)
  | wglDXLockObjectsNV (hDevice hObject : HANDLE)
  | wglDXUnlockObjectsNV (hDevice hObject : HANDLE)
  | wglGetCurrentContext
  | wglDXUnregisterObjectNV (hDevice hObject : HANDLE)
  | TransferVideoFrame (engine dx : Nat) (dst : RECT)
  | SetUnknown (attributes manager : Nat)
deriving DecidableEq, Repr

/-- The external collaborators.  The first argument of every oracle is the number of log
entries at the time of the call. -/
structure Env where
  NDEBUG : Bool
  MFCreateDXGIDeviceManager : Nat → Option (Nat × Nat)
  D3D11CreateDevice : Nat → Nat → Option Nat
  QueryInterface : Nat → Nat → Bool
  ResetDevice : Nat → Nat → Nat → Nat → Bool
  wglDXOpenDeviceNV : Nat → Nat → HANDLE
  CreateTexture2D : Nat → Nat → D3D11_TEXTURE2D_DESC → Option Nat
  glTextureCreate : Nat → Int → Int → Nat
  wglDXRegisterObjectNV : Nat → HANDLE → Nat → Nat → HANDLE
  wglDXLockObjectsNV : Nat → HANDLE → HANDLE → Bool
  wglDXUnlockObjectsNV : Nat → HANDLE → HANDLE → Bool
  wglGetCurrentContext : Nat → HANDLE
  TransferVideoFrame : Nat → Nat → Nat → RECT → Bool
  SetUnknown : Nat → Nat → Nat → Bool

/-- The data members of `class InteropContext` with their default member initialisers. -/
structure InteropContext where
  _device : Option Nat := none
  _dxgiManager : Option Nat := none
  _dxgiResetToken : Nat := 0
  _interopHandle : HANDLE := 0
  _isValid : Bool := false
deriving DecidableEq, Repr

/-- The data members of `class DXGIRenderPath::SharedTexture` with their defaults. -/
structure SharedTexture where
  _glTexture : Option GLTexture := none
  _dxTexture : Option DXTexture := none
  _shareHandle : HANDLE := 0
  _isValid : Bool := false
  _isLocked : Bool := false
  _presentationTimestamp : LONGLONG := -1
deriving DecidableEq, Repr

/-- `InteropContext::DXGIManager ( )`: the raw manager pointer, `0` when there is none. -/
def InteropContext.DXGIManager (c : InteropContext) : Nat :=
  c._dxgiManager.getD 0

/-- `SharedTexture::DXTextureHandle ( )`: the raw surface pointer, `0` when there is none. -/
def SharedTexture.DXTextureHandle (t : SharedTexture) : Nat :=
  match t._dxTexture with
  | some dx => dx.ptr
  | none => 0

/-- The process state: call log (newest first), the `kInteropContext` static, and the heap of
live `SharedTexture` objects with the next fresh address. -/
structure World where
  log : List Event := []
  kInteropContext : Option InteropContext := none
  heap : Nat → Option SharedTexture := fun _ => none
  nextAddr : Nat := 1

/-- Append one entry to the log. -/
def World.emit (w : World) (e : Event) : World :=
  { w with log := e :: w.log }

/-- Read the object a `SharedTexture *` points to. -/
def World.deref (w : World) (a : Nat) : Except Fault SharedTexture :=
  match w.heap a with
  | some t => .ok t
  | none => .error .nullDeref

/-- Write the object a `SharedTexture *` points to. -/
def World.store (w : World) (a : Nat) (t : SharedTexture) : World :=
  { w with heap := fun b => if b = a then some t else w.heap b }

/-- Release the storage of the object at `a`. -/
def World.free (w : World) (a : Nat) : World :=
  { w with heap := fun b => if b = a then none else w.heap b }

/-- The C `assert`: checked in debug builds only. -/
def assert (env : Env) (c : Bool) : Except Fault Unit :=
  if env.NDEBUG || c then .ok () else .error .assertion

/-- `InteropContext::InteropContext ( )`, lines 135-165.  The locals of lines 159-162 are
never read and are left out. -/
def InteropContext.ctor (env : Env) (w : World) : InteropContext × World :=
  let this : InteropContext := { _isValid := false }
  let w := w.emit .InteropContext_ctor
  let deviceFlags := D3D11_CREATE_DEVICE_BGRA_SUPPORT ||| D3D11_CREATE_DEVICE_VIDEO_SUPPORT
  let deviceFlags := if env.NDEBUG then deviceFlags else deviceFlags ||| D3D11_CREATE_DEVICE_DEBUG
  match env.MFCreateDXGIDeviceManager w.log.length with
  | none => (this, w.emit .MFCreateDXGIDeviceManager)
  | some (token, manager) =>
    let w := w.emit .MFCreateDXGIDeviceManager
    let this := { this with _dxgiResetToken := token, _dxgiManager := some manager }
    match env.D3D11CreateDevice w.log.length deviceFlags with
    | none => (this, w.emit (.D3D11CreateDevice deviceFlags))
    | some device =>
      let w := w.emit (.D3D11CreateDevice deviceFlags)
      let this := { this with _device := some device }
      if env.QueryInterface w.log.length device then
        let w := (w.emit (.QueryInterface device)).emit (.SetMultithreadProtected device)
        if env.ResetDevice w.log.length manager device token then
          let w := w.emit (.ResetDevice manager device token)
          let h := env.wglDXOpenDeviceNV w.log.length device
          let w := w.emit (.wglDXOpenDeviceNV device)
          ({ this with _interopHandle := h, _isValid := h != 0 }, w)
        else
          (this, w.emit (.ResetDevice manager device token))
      else
        (this, w.emit (.QueryInterface device))

/-- `InteropContext::StaticInitialize ( )`, lines 66-72. -/
def InteropContext.StaticInitialize (env : Env) (w : World) : World :=
  match w.kInteropContext with
  | none =>
    let (c, w) := InteropContext.ctor env w
    { w with kInteropContext := some c }
  | some _ => w

/-- `InteropContext::Get ( )`, lines 74-78: the assertion aborts a debug build; a release
build returns a null reference whose first use faults. -/
def InteropContext.Get (env : Env) (w : World) : Except Fault InteropContext :=
  match w.kInteropContext with
  | some c => .ok c
  | none => .error (if env.NDEBUG then .nullDeref else .assertion)

/-- The descriptor filled in at lines 201-210; the `int` components of `size` are converted
to the `UINT` fields `Width` and `Height`. -/
def SharedTexture.desc (size : ivec2) : D3D11_TEXTURE2D_DESC :=
  { Width := (size.x % 2 ^ 32).toNat
    Height := (size.y % 2 ^ 32).toNat
    MipLevels := 1
    ArraySize := 1
    Format := DXGI_FORMAT_B8G8R8A8_UNORM
    SampleDescCount := 1
    SampleDescQuality := 0
    BindFlags := D3D11_BIND_RENDER_TARGET
    Usage := D3D11_USAGE_DEFAULT }

/-- `SharedTexture::SharedTexture ( const ivec2 & size )`, lines 199-223. -/
def SharedTexture.ctor (env : Env) (size : ivec2) (w : World) :
    Except Fault (SharedTexture × World) := do
  let this : SharedTexture := {}
  let desc := SharedTexture.desc size
  let context ← InteropContext.Get env w
  match context._device with
  | none => .error .nullDeref
  | some device =>
    match env.CreateTexture2D w.log.length device desc with
    | some dx =>
      let w := w.emit (.CreateTexture2D device desc)
      let this := { this with _dxTexture := some { ptr := dx, desc := desc } }
      let gl : GLTexture :=
        { id := env.glTextureCreate w.log.length size.x size.y
          width := size.x
          height := size.y
          internalFormat := GL_RGBA
          loadTopDown := true }
      let w := w.emit (.glTextureCreate size.x size.y)
      let this := { this with _glTexture := some gl }
      let h := env.wglDXRegisterObjectNV w.log.length context._interopHandle dx gl.id
      let w := w.emit (.wglDXRegisterObjectNV context._interopHandle dx gl.id)
      .ok ({ this with _shareHandle := h, _isValid := h != 0 }, w)
    | none => .ok (this, w.emit (.CreateTexture2D device desc))

/-- `SharedTexture::Lock ( )`, lines 225-230, on the object at address `a`. -/
def SharedTexture.Lock (env : Env) (a : Nat) (w : World) : Except Fault (Bool × World) := do
  let w := w.emit (.Lock a)
  let this ← w.deref a
  assert env (!this._isLocked)
  let context ← InteropContext.Get env w
  let r := env.wglDXLockObjectsNV w.log.length context._interopHandle this._shareHandle
  let w := w.emit (.wglDXLockObjectsNV context._interopHandle this._shareHandle)
  .ok (r, w.store a { this with _isLocked := r })

/-- `SharedTexture::Unlock ( )`, lines 232-242, on the object at address `a`. -/
def SharedTexture.Unlock (env : Env) (a : Nat) (w : World) : Except Fault (Bool × World) := do
  let w := w.emit (.Unlock a)
  let this ← w.deref a
  assert env this._isLocked
  let context ← InteropContext.Get env w
  let r := env.wglDXUnlockObjectsNV w.log.length context._interopHandle this._shareHandle
  let w := w.emit (.wglDXUnlockObjectsNV context._interopHandle this._shareHandle)
  if r then
    .ok (true, w.store a { this with _isLocked := false })
  else
    .ok (false, w)

/-- `SharedTexture::IsLocked ( )` through a pointer. -/
def SharedTexture.IsLocked (a : Nat) (w : World) : Except Fault Bool := do
  let this ← w.deref a
  .ok this._isLocked

/-- `SharedTexture::GetPresentationTimestamp ( )` through a pointer. -/
def SharedTexture.GetPresentationTimestamp (a : Nat) (w : World) : Except Fault LONGLONG := do
  let this ← w.deref a
  .ok this._presentationTimestamp

/-- `delete` of a `SharedTexture`: `SharedTexture::~SharedTexture ( )`, lines 244-255, then the
members and the storage are released. -/
def SharedTexture.delete (env : Env) (a : Nat) (w : World) : Except Fault World := do
  let this ← w.deref a
  if this._shareHandle != 0 then
    let current := env.wglGetCurrentContext w.log.length
    let w := w.emit .wglGetCurrentContext
    if current != 0 then
      let w ←
        if this._isLocked then do
          let context ← InteropContext.Get env w
          .ok (w.emit (.wglDXUnlockObjectsNV context._interopHandle this._shareHandle))
        else .ok w
      let context ← InteropContext.Get env w
      let w := w.emit (.wglDXUnregisterObjectNV context._interopHandle this._shareHandle)
      .ok (w.free a)
    else .ok (w.free a)
  else .ok (w.free a)

/-- `std::make_unique<SharedTexture> ( size )`: fresh storage, then the constructor. -/
def SharedTexture.make_unique (env : Env) (size : ivec2) (w : World) :
    Except Fault (Nat × World) := do
  let (t, w) ← SharedTexture.ctor env size w
  let a := w.nextAddr
  .ok (a, { (w.store a t) with nextAddr := a + 1 })

/-- `InteropContext::CreateSharedTexture ( const ivec2 & size )`, lines 167-173. -/
def InteropContext.CreateSharedTexture (env : Env) (size : ivec2) (w : World) :
    Except Fault (Option Nat × World) := do
  let w := w.emit (.CreateSharedTexture size)
  let (texture, w) ← SharedTexture.make_unique env size w
  let t ← w.deref texture
  if t._isValid then
    .ok (some texture, w)
  else
    let w ← SharedTexture.delete env texture w
    .ok (none, w)

/-- The data members of `DXGIRenderPath` that the source file uses (the class declaration is
in a header outside the sources): the size key, the owned texture, and of the owning player
the media engine and the new-frame flag. -/
structure DXGIRenderPath where
  _size : ivec2
  _sharedTexture : Option Nat := none
  _owner_mediaEngine : Nat
  _owner_hasNewFrame : Bool
deriving DecidableEq, Repr

/-- `DXGIRenderPath::Initialize ( IMFAttributes & attributes )`, lines 261-274. -/
def DXGIRenderPath.Initialize (env : Env) (attributes : Nat) (w : World) :
    Except Fault (Bool × World) := do
  let w := InteropContext.StaticInitialize env w
  let interop ← InteropContext.Get env w
  if !interop._isValid then
    .ok (false, w)
  else
    let manager := interop.DXGIManager
    let r := env.SetUnknown w.log.length attributes manager
    let w := w.emit (.SetUnknown attributes manager)
    if r then .ok (true, w) else .ok (false, w)

/-- `DXGIRenderPath::InitializeRenderTarget ( const ci::ivec2 & size )`, lines 276-285. -/
def DXGIRenderPath.InitializeRenderTarget (env : Env) (size : ivec2) (p : DXGIRenderPath)
    (w : World) : Except Fault (Bool × DXGIRenderPath × World) := do
  if p._sharedTexture.isNone || size != p._size then
    let old := p._sharedTexture
    let p := { p with _size := size }
    let _ ← InteropContext.Get env w
    let (texture, w) ← InteropContext.CreateSharedTexture env size w
    let w ← match old with
      | some o => SharedTexture.delete env o w
      | none => .ok w
    let p := { p with _sharedTexture := texture }
    .ok (p._sharedTexture.isSome, p, w)
  else
    .ok (p._sharedTexture.isSome, p, w)

/-- `DXGIRenderPath::ProcessFrame ( LONGLONG presentationTimestamp )`, lines 287-308. -/
def DXGIRenderPath.ProcessFrame (env : Env) (presentationTimestamp : LONGLONG)
    (p : DXGIRenderPath) (w : World) : Except Fault (Bool × DXGIRenderPath × World) :=
  match p._sharedTexture with
  | some a => do
    let t ← w.deref a
    let dstRect : RECT := { left := 0, top := 0, right := p._size.x, bottom := p._size.y }
    let ok := env.TransferVideoFrame w.log.length p._owner_mediaEngine t.DXTextureHandle dstRect
    let w := w.emit (.TransferVideoFrame p._owner_mediaEngine t.DXTextureHandle dstRect)
    let p := if ok then { p with _owner_hasNewFrame := true } else p
    let w := w.store a { t with _presentationTimestamp := presentationTimestamp }
    .ok (ok, p, w)
  | none => .ok (false, p, w)

/-- The data member of `DXGIRenderPathFrameLease`: a non-owning `SharedTexture *`. -/
structure DXGIRenderPathFrameLease where
  _texture : Option Nat := none
deriving DecidableEq, Repr

/-- The constructor `DXGIRenderPathFrameLease ( const SharedTextureRef & texture )`,
lines 111-115. -/
def DXGIRenderPathFrameLease.ctor (env : Env) (texture : Option Nat) (w : World) :
    Except Fault (DXGIRenderPathFrameLease × World) :=
  match texture with
  | some a => do
    let (_, w) ← SharedTexture.Lock env a w
    .ok ({ _texture := some a }, w)
  | none => .ok ({ _texture := none }, w)

/-- `DXGIRenderPathFrameLease::ToTexture ( )`, line 118. -/
def DXGIRenderPathFrameLease.ToTexture (l : DXGIRenderPathFrameLease) (w : World) :
    Except Fault (Option GLTexture) :=
  match l._texture with
  | some a => do
    let t ← w.deref a
    .ok t._glTexture
  | none => .ok none

/-- `DXGIRenderPathFrameLease::IsValid ( )`, line 117. -/
def DXGIRenderPathFrameLease.IsValid (l : DXGIRenderPathFrameLease) (w : World) :
    Except Fault Bool := do
  let t ← l.ToTexture w
  .ok t.isSome

/-- `DXGIRenderPathFrameLease::GetPresentationTimeStamp ( )`, line 119. -/
def DXGIRenderPathFrameLease.GetPresentationTimeStamp (l : DXGIRenderPathFrameLease)
    (w : World) : Except Fault LONGLONG :=
  match l._texture with
  | some a => SharedTexture.GetPresentationTimestamp a w
  | none => .ok (-1)

/-- `DXGIRenderPathFrameLease::~DXGIRenderPathFrameLease ( )`, lines 121-128. -/
def DXGIRenderPathFrameLease.dtor (env : Env) (l : DXGIRenderPathFrameLease) (w : World) :
    Except Fault World :=
  match l._texture with
  | some a => do
    let locked ← SharedTexture.IsLocked a w
    if locked then
      let (_, w) ← SharedTexture.Unlock env a w
      .ok w
    else .ok w
  | none => .ok w

/-- `DXGIRenderPath::GetFrameLease ( )`, lines 310-313. -/
def DXGIRenderPath.GetFrameLease (env : Env) (p : DXGIRenderPath) (w : World) :
    Except Fault (DXGIRenderPathFrameLease × World) :=
  DXGIRenderPathFrameLease.ctor env p._sharedTexture w

/-- `DXGIRenderPath::~DXGIRenderPath ( )`, lines 315-318. -/
def DXGIRenderPath.dtor (env : Env) (p : DXGIRenderPath) (w : World) : Except Fault World :=
  match p._sharedTexture with
  | some a => SharedTexture.delete env a w
  | none => .ok w

/-! ## Concrete environments and states used for evaluation -/

/-- An environment in which every platform call succeeds (debug build). -/
def envOk : Env where
  NDEBUG := false
  MFCreateDXGIDeviceManager := fun _ => some (5, 100)
  D3D11CreateDevice := fun _ _ => some 200
  QueryInterface := fun _ _ => true
  ResetDevice := fun _ _ _ _ => true
  wglDXOpenDeviceNV := fun _ _ => 300
  CreateTexture2D := fun n _ _ => some (1000 + n)
  glTextureCreate := fun n _ _ => 2000 + n
  wglDXRegisterObjectNV := fun n _ _ _ => 3000 + n
  wglDXLockObjectsNV := fun _ _ _ => true
  wglDXUnlockObjectsNV := fun _ _ _ => true
  wglGetCurrentContext := fun _ => 400
  TransferVideoFrame := fun _ _ _ _ => true
  SetUnknown := fun _ _ _ => true

/-- A session as it is before any render target was initialised. -/
def session0 : DXGIRenderPath :=
  { _size := ⟨0, 0⟩, _sharedTexture := none, _owner_mediaEngine := 7, _owner_hasNewFrame := false }

/-- The world after the first `StaticInitialize` of a process. -/
def booted (env : Env) : World :=
  InteropContext.StaticInitialize env {}

/-- The session and world after `StaticInitialize` and one `InitializeRenderTarget ( size )`
(the unchanged inputs if that call faults). -/
def started (env : Env) (size : ivec2) : DXGIRenderPath × World :=
  match DXGIRenderPath.InitializeRenderTarget env size session0 (booted env) with
  | .ok (_, p, w) => (p, w)
  | .error _ => (session0, booted env)


/-- As `envOk`, but surface allocation fails until the log holds more than 8 entries: the
first texture creation of a process fails, later ones succeed. -/
def envRetry : Env :=
  { envOk with CreateTexture2D := fun n _ _ => if n ≤ 8 then none else some (1000 + n) }

/-- As `envOk`, but surface allocation fails once the log holds 12 entries or more: the first
texture creation of a process succeeds, later ones fail. -/
def envSecondFails : Env :=
  { envOk with CreateTexture2D := fun n _ _ => if n < 12 then some (1000 + n) else none }

/-- As `envOk`, but the bridge refuses every lock request. -/
def envLockFails : Env :=
  { envOk with wglDXLockObjectsNV := fun _ _ _ => false }

/-- As `envOk`, but the bridge refuses every unlock request. -/
def envUnlockFails : Env :=
  { envOk with wglDXUnlockObjectsNV := fun _ _ _ => false }

/-! ## Call sequences on one texture -/

/-- The two calls of the lock protocol of a `SharedTexture`. -/
inductive LockCall where
  | Lock
  | Unlock
deriving DecidableEq, Repr

/-- Perform one call of the lock protocol on the texture at address `a`. -/
def LockCall.run (env : Env) (a : Nat) : LockCall → World → Except Fault (Bool × World)
  | .Lock, w => SharedTexture.Lock env a w
  | .Unlock, w => SharedTexture.Unlock env a w

/-- Perform a sequence of calls on the texture at `a`, collecting the returned values. -/
def runLockCalls (env : Env) (a : Nat) : List LockCall → World → Except Fault (List Bool × World)
  | [], w => .ok ([], w)
  | call :: calls, w => do
    let (r, w) ← call.run env a w
    let (rs, w) ← runLockCalls env a calls w
    .ok (r :: rs, w)

/-- The call contract of lines 227 and 234: `Lock` is only called on an unlocked texture and
`Unlock` only on a locked one, at every call of the sequence that is reached. -/
def respectsContract (env : Env) (a : Nat) : List LockCall → World → Bool
  | [], _ => true
  | call :: calls, w =>
    (match SharedTexture.IsLocked a w with
      | .ok locked => (match call with
        | .Lock => !locked
        | .Unlock => locked)
      | .error _ => false) &&
    (match call.run env a w with
      | .ok (_, w') => respectsContract env a calls w'
      | .error _ => true)

/-- The most recent call of a history (oldest first) that returned true, if any. -/
def lastSuccessful : List (LockCall × Bool) → Option LockCall
  | [] => none
  | (call, r) :: later =>
    match lastSuccessful later with
    | some c => some c
    | none => if r then some call else none

/-! ## Call sequences on one session -/

/-- The two per-frame calls a player makes on its render path. -/
inductive SessionCall where
  | InitializeRenderTarget (size : ivec2)
  | ProcessFrame (presentationTimestamp : LONGLONG)
deriving DecidableEq, Repr

/-- Perform one call on the session `p`. -/
def SessionCall.run (env : Env) :
    SessionCall → DXGIRenderPath → World → Except Fault (Bool × DXGIRenderPath × World)
  | .InitializeRenderTarget size, p, w => DXGIRenderPath.InitializeRenderTarget env size p w
  | .ProcessFrame pts, p, w => DXGIRenderPath.ProcessFrame env pts p w

/-- The timestamp a consumer reads through the session's current texture: what
`GetPresentationTimeStamp ( )` of a lease on `_sharedTexture` returns. -/
def DXGIRenderPath.observe (p : DXGIRenderPath) (w : World) : Except Fault LONGLONG :=
  DXGIRenderPathFrameLease.GetPresentationTimeStamp { _texture := p._sharedTexture } w

/-- The timestamps observed after each call of a sequence, oldest first; the sequence ends at
the first call that faults. -/
def observations (env : Env) : List SessionCall → DXGIRenderPath → World → List LONGLONG
  | [], _, _ => []
  | call :: calls, p, w =>
    match call.run env p w with
    | .ok (_, p', w') =>
      (match p'.observe w' with
        | .ok t => [t]
        | .error _ => []) ++ observations env calls p' w'
    | .error _ => []

/-- The timestamps passed to `ProcessFrame` in a sequence, in call order. -/
def suppliedTimestamps : List SessionCall → List LONGLONG
  | [] => []
  | .ProcessFrame pts :: calls => pts :: suppliedTimestamps calls
  | .InitializeRenderTarget _ :: calls => suppliedTimestamps calls

/-- The sizes passed to `InitializeRenderTarget` in a sequence, in call order. -/
def requestedSizes : List SessionCall → List ivec2
  | [] => []
  | .InitializeRenderTarget size :: calls => size :: requestedSizes calls
  | .ProcessFrame _ :: calls => requestedSizes calls

/-! ## The whole process: any number of sessions and leases -/

/-- A process: the world, the render path of every session (by session number), and the
leases currently alive (by lease number). -/
structure Process where
  world : World
  sessions : Nat → DXGIRenderPath
  leases : Nat → Option DXGIRenderPathFrameLease

/-- The calls the rest of the player makes into this file. -/
inductive Call where
  | StaticInitialize
  | Initialize (session attributes : Nat)
  | InitializeRenderTarget (session : Nat) (size : ivec2)
  | ProcessFrame (session : Nat) (presentationTimestamp : LONGLONG)
  | GetFrameLease (session lease : Nat)
  | IsValid (lease : Nat)
  | ReleaseLease (lease : Nat)
  | CloseSession (session : Nat)
deriving DecidableEq, Repr

/-- Perform one call.  The reply is the returned `bool` for the calls that return one.  A
lease number names at most one live lease: `GetFrameLease` on a number in use, and `IsValid`
or `ReleaseLease` on a number not in use, do nothing. -/
def Call.run (env : Env) : Call → Process → Except Fault (Option Bool × Process)
  | .StaticInitialize, P =>
    .ok (none, { P with world := InteropContext.StaticInitialize env P.world })
  | .Initialize _ attributes, P => do
    let (r, w) ← DXGIRenderPath.Initialize env attributes P.world
    .ok (some r, { P with world := w })
  | .InitializeRenderTarget s size, P => do
    let (r, p, w) ← DXGIRenderPath.InitializeRenderTarget env size (P.sessions s) P.world
    .ok (some r, { P with world := w, sessions := fun i => if i = s then p else P.sessions i })
  | .ProcessFrame s pts, P => do
    let (r, p, w) ← DXGIRenderPath.ProcessFrame env pts (P.sessions s) P.world
    .ok (some r, { P with world := w, sessions := fun i => if i = s then p else P.sessions i })
  | .GetFrameLease s l, P =>
    match P.leases l with
    | some _ => .ok (none, P)
    | none => do
      let (lease, w) ← DXGIRenderPath.GetFrameLease env (P.sessions s) P.world
      .ok (none, { P with world := w, leases := fun i => if i = l then some lease else P.leases i })
  | .IsValid l, P =>
    match P.leases l with
    | some lease => do
      let r ← lease.IsValid P.world
      .ok (some r, P)
    | none => .ok (none, P)
  | .ReleaseLease l, P =>
    match P.leases l with
    | some lease => do
      let w ← lease.dtor env P.world
      .ok (none, { P with world := w, leases := fun i => if i = l then none else P.leases i })
    | none => .ok (none, P)
  | .CloseSession s, P => do
    let w ← DXGIRenderPath.dtor env (P.sessions s) P.world
    .ok (none, { P with world := w,
                        sessions := fun i =>
                          if i = s then { P.sessions s with _sharedTexture := none }
                          else P.sessions i })

/-- Perform a sequence of calls, collecting the replies. -/
def runCalls (env : Env) : List Call → Process → Except Fault (List (Option Bool) × Process)
  | [], P => .ok ([], P)
  | call :: calls, P => do
    let (r, P) ← call.run env P
    let (rs, P) ← runCalls env calls P
    .ok (r :: rs, P)

/-- A process in which nothing has happened yet: no context, no texture, no lease. -/
def Process.fresh : Process :=
  { world := {}, sessions := fun _ => session0, leases := fun _ => none }

/-- As `envOk`, but the bridge cannot be opened (`wglDXOpenDeviceNV` returns null) and
refuses to register anything on a null device handle. -/
def envNoBridge : Env :=
  { envOk with
    wglDXOpenDeviceNV := fun _ _ => 0
    wglDXRegisterObjectNV := fun n h _ _ => if h = 0 then 0 else 3000 + n }

/-- As `envNoBridge`, but already the Direct3D device cannot be created. -/
def envNoDevice : Env :=
  { envNoBridge with D3D11CreateDevice := fun _ _ => none }

/-- The world while a lease on the texture of `started env size` is alive (the world of
`started` itself if taking the lease faults). -/
def leased (env : Env) (size : ivec2) : World :=
  match DXGIRenderPath.GetFrameLease env (started env size).1 (started env size).2 with
  | .ok (_, w) => w
  | .error _ => (started env size).2

/-! # Theorems -/

/-! ## Single-call lemmas -/

theorem Lock_eq (env : Env) (a : Nat) (w : World) (t : SharedTexture) (c : InteropContext)
    (ht : w.heap a = some t) (hl : t._isLocked = false) (hc : w.kInteropContext = some c) :
    SharedTexture.Lock env a w =
      .ok (env.wglDXLockObjectsNV (w.log.length + 1) c._interopHandle t._shareHandle,
        ((w.emit (.Lock a)).emit (.wglDXLockObjectsNV c._interopHandle t._shareHandle)).store a
          { t with
            _isLocked :=
              env.wglDXLockObjectsNV (w.log.length + 1) c._interopHandle t._shareHandle }) := by
  simp [SharedTexture.Lock, World.deref, World.emit, assert, InteropContext.Get, bind,
    Except.bind, ht, hl, hc]

theorem Unlock_eq (env : Env) (a : Nat) (w : World) (t : SharedTexture) (c : InteropContext)
    (ht : w.heap a = some t) (hl : t._isLocked = true) (hc : w.kInteropContext = some c) :
    SharedTexture.Unlock env a w =
      if env.wglDXUnlockObjectsNV (w.log.length + 1) c._interopHandle t._shareHandle then
        .ok (true, ((w.emit (.Unlock a)).emit
          (.wglDXUnlockObjectsNV c._interopHandle t._shareHandle)).store a
            { t with _isLocked := false })
      else
        .ok (false, (w.emit (.Unlock a)).emit
          (.wglDXUnlockObjectsNV c._interopHandle t._shareHandle)) := by
  simp [SharedTexture.Unlock, World.deref, World.emit, assert, InteropContext.Get, bind,
    Except.bind, ht, hl, hc]

/-- C6: on a locked texture `Unlock ( )` returns the bridge's answer; on success the locked
flag is cleared (nothing else of the texture changes); on failure no texture changes at all
and the texture is still locked. -/
theorem C6_Unlock_success_and_failure (env : Env) (a : Nat) (w : World) (t : SharedTexture)
    (c : InteropContext) (ht : w.heap a = some t) (hl : t._isLocked = true)
    (hc : w.kInteropContext = some c) :
    ∃ r w', SharedTexture.Unlock env a w = .ok (r, w') ∧
      r = env.wglDXUnlockObjectsNV (w.log.length + 1) c._interopHandle t._shareHandle ∧
      (r = true → w'.heap a = some { t with _isLocked := false } ∧
        SharedTexture.IsLocked a w' = .ok false) ∧
      (r = false → w'.heap = w.heap ∧ SharedTexture.IsLocked a w' = .ok true) := by
  rw [Unlock_eq env a w t c ht hl hc]
  cases hr : env.wglDXUnlockObjectsNV (w.log.length + 1) c._interopHandle t._shareHandle
  · refine ⟨false, _, rfl, rfl, by simp, fun _ => ⟨rfl, ?_⟩⟩
    simp [SharedTexture.IsLocked, World.deref, World.emit, bind, Except.bind, ht, hl]
  · refine ⟨true, _, rfl, rfl, fun _ => ⟨?_, ?_⟩, by simp⟩
    · simp [World.store]
    · simp [SharedTexture.IsLocked, World.deref, World.store, bind, Except.bind]

theorem ProcessFrame_eq (env : Env) (pts : LONGLONG) (p : DXGIRenderPath) (w : World)
    (a : Nat) (t : SharedTexture) (hp : p._sharedTexture = some a) (ht : w.heap a = some t) :
    DXGIRenderPath.ProcessFrame env pts p w =
      .ok (env.TransferVideoFrame w.log.length p._owner_mediaEngine t.DXTextureHandle
            ⟨0, 0, p._size.x, p._size.y⟩,
          (if env.TransferVideoFrame w.log.length p._owner_mediaEngine t.DXTextureHandle
              ⟨0, 0, p._size.x, p._size.y⟩ then { p with _owner_hasNewFrame := true } else p),
          (w.emit (.TransferVideoFrame p._owner_mediaEngine t.DXTextureHandle
            ⟨0, 0, p._size.x, p._size.y⟩)).store a { t with _presentationTimestamp := pts }) := by
  simp [DXGIRenderPath.ProcessFrame, hp, World.deref, ht, bind, Except.bind]

theorem ProcessFrame_none (env : Env) (pts : LONGLONG) (p : DXGIRenderPath) (w : World)
    (hp : p._sharedTexture = none) :
    DXGIRenderPath.ProcessFrame env pts p w = .ok (false, p, w) := by
  simp [DXGIRenderPath.ProcessFrame, hp]

/-- C7: with a texture held, `ProcessFrame ( t )` returns the engine's transfer result, the
texture's timestamp is `t` afterwards in either case, and the new-frame flag is raised on
success and untouched on failure; with no texture held it returns false and changes nothing. -/
theorem C7_ProcessFrame_result (env : Env) (pts : LONGLONG) (p : DXGIRenderPath) (w : World)
    (hlive : ∀ a, p._sharedTexture = some a → (w.heap a).isSome = true) :
    ∃ r p' w', DXGIRenderPath.ProcessFrame env pts p w = .ok (r, p', w') ∧
      (∀ a t, p._sharedTexture = some a → w.heap a = some t →
        r = env.TransferVideoFrame w.log.length p._owner_mediaEngine t.DXTextureHandle
              ⟨0, 0, p._size.x, p._size.y⟩ ∧
        SharedTexture.GetPresentationTimestamp a w' = .ok pts ∧
        w'.heap a = some { t with _presentationTimestamp := pts } ∧
        p'._owner_hasNewFrame = (r || p._owner_hasNewFrame) ∧
        p'._sharedTexture = some a ∧ p'._size = p._size) ∧
      (p._sharedTexture = none → r = false ∧ p' = p ∧ w' = w) := by
  cases hp : p._sharedTexture with
  | none => exact ⟨false, p, w, ProcessFrame_none env pts p w hp, by simp, by simp⟩
  | some a =>
    have h := hlive a hp
    cases ht : w.heap a with
    | none => simp [ht] at h
    | some t =>
      refine ⟨_, _, _, ProcessFrame_eq env pts p w a t hp ht, ?_, by simp⟩
      intro a' t' ha' ht'
      cases ha'
      rw [ht] at ht'
      cases ht'
      refine ⟨rfl, ?_, ?_, ?_, ?_, ?_⟩
      · simp [SharedTexture.GetPresentationTimestamp, World.deref, World.store, bind,
          Except.bind]
      · simp [World.store]
      · cases env.TransferVideoFrame w.log.length p._owner_mediaEngine t.DXTextureHandle
          ⟨0, 0, p._size.x, p._size.y⟩ <;> simp
      · cases env.TransferVideoFrame w.log.length p._owner_mediaEngine t.DXTextureHandle
          ⟨0, 0, p._size.x, p._size.y⟩ <;> simp [hp]
      · cases env.TransferVideoFrame w.log.length p._owner_mediaEngine t.DXTextureHandle
          ⟨0, 0, p._size.x, p._size.y⟩ <;> simp

/-- C4: the lease `GetFrameLease ( )` builds when no texture is held is constructed without
any effect on the world (so without a `Lock` call), reports `IsValid ( ) = false`,
`ToTexture ( ) = nullptr` and timestamp `-1` in every world, and destroying it has no effect
on the world either (so no `Unlock` call). -/
theorem C4_null_lease (env : Env) (p : DXGIRenderPath) (w : World)
    (h : p._sharedTexture = none) :
    ∃ l, DXGIRenderPath.GetFrameLease env p w = .ok (l, w) ∧
      DXGIRenderPathFrameLease.ctor env none w = .ok (l, w) ∧
      ∀ w2 : World, l.IsValid w2 = .ok false ∧ l.ToTexture w2 = .ok none ∧
        l.GetPresentationTimeStamp w2 = .ok (-1) ∧ l.dtor env w2 = .ok w2 := by
  refine ⟨{ _texture := none }, ?_, rfl, fun w2 => ⟨rfl, rfl, rfl, rfl⟩⟩
  simp [DXGIRenderPath.GetFrameLease, h, DXGIRenderPathFrameLease.ctor]
theorem delete_spec (env : Env) (a : Nat) (w : World) (t : SharedTexture) (c : InteropContext)
    (ht : w.heap a = some t) (hc : w.kInteropContext = some c) :
    ∃ w', SharedTexture.delete env a w = .ok w' ∧ w'.heap a = none ∧
      (∀ b, b ≠ a → w'.heap b = w.heap b) ∧ w'.kInteropContext = w.kInteropContext ∧
      w'.nextAddr = w.nextAddr ∧ ∃ evs, w'.log = evs ++ w.log ∧
        ∀ e ∈ evs, e = .wglGetCurrentContext ∨
          e = .wglDXUnlockObjectsNV c._interopHandle t._shareHandle ∨
          e = .wglDXUnregisterObjectNV c._interopHandle t._shareHandle := by
  unfold SharedTexture.delete
  simp only [World.deref, ht, bind, Except.bind]
  by_cases hs : t._shareHandle = 0
  · refine ⟨w.free a, by simp [hs], by simp [World.free], ?_, rfl, rfl, [], by simp [World.free], by simp⟩
    intro b hb; simp [World.free, hb]
  · by_cases hcur : env.wglGetCurrentContext w.log.length = 0
    · refine ⟨(w.emit .wglGetCurrentContext).free a, by simp [hs, hcur],
        by simp [World.free], ?_, rfl, rfl, [.wglGetCurrentContext], by simp [World.free, World.emit], by simp⟩
      intro b hb; simp [World.free, World.emit, hb]
    · cases hl : t._isLocked
      · refine ⟨((w.emit .wglGetCurrentContext).emit
          (.wglDXUnregisterObjectNV c._interopHandle t._shareHandle)).free a,
          by simp [hs, hcur, hl, InteropContext.Get, World.emit, hc],
          by simp [World.free], ?_, rfl, rfl,
          [.wglDXUnregisterObjectNV c._interopHandle t._shareHandle, .wglGetCurrentContext],
          by simp [World.free, World.emit], by simp⟩
        intro b hb; simp [World.free, World.emit, hb]
      · refine ⟨(((w.emit .wglGetCurrentContext).emit
          (.wglDXUnlockObjectsNV c._interopHandle t._shareHandle)).emit
          (.wglDXUnregisterObjectNV c._interopHandle t._shareHandle)).free a,
          by simp [hs, hcur, hl, InteropContext.Get, World.emit, hc],
          by simp [World.free], ?_, rfl, rfl,
          [.wglDXUnregisterObjectNV c._interopHandle t._shareHandle,
            .wglDXUnlockObjectsNV c._interopHandle t._shareHandle, .wglGetCurrentContext],
          by simp [World.free, World.emit], by simp⟩
        intro b hb; simp [World.free, World.emit, hb]
theorem CreateSharedTexture_spec (env : Env) (size : ivec2) (w : World) (c : InteropContext)
    (d : Nat) (hc : w.kInteropContext = some c) (hd : c._device = some d) :
    ∃ r w', InteropContext.CreateSharedTexture env size w = .ok (r, w') ∧
      w'.kInteropContext = w.kInteropContext ∧ w'.nextAddr = w.nextAddr + 1 ∧
      (∀ b, b ≠ w.nextAddr → w'.heap b = w.heap b) ∧
      (∃ evs, w'.log = evs ++ Event.CreateSharedTexture size :: w.log) ∧
      (r.isSome = true ↔ ∃ dx, env.CreateTexture2D (w.log.length + 1) d
          (SharedTexture.desc size) = some dx ∧
        env.wglDXRegisterObjectNV (w.log.length + 3) c._interopHandle dx
          (env.glTextureCreate (w.log.length + 2) size.x size.y) ≠ 0) ∧
      (r = none → w'.heap w.nextAddr = none) ∧
      (∀ a, r = some a → a = w.nextAddr ∧ ∃ t gl dx, w'.heap a = some t ∧
        t._isValid = true ∧ t._isLocked = false ∧ t._presentationTimestamp = -1 ∧
        t._glTexture = some gl ∧ gl.width = size.x ∧ gl.height = size.y ∧
        t._dxTexture = some dx ∧ dx.desc = SharedTexture.desc size) := by
  unfold InteropContext.CreateSharedTexture SharedTexture.make_unique SharedTexture.ctor
  simp only [InteropContext.Get, World.emit, hc, hd, bind, Except.bind, List.length_cons]
  cases hdx : env.CreateTexture2D (w.log.length + 1) d (SharedTexture.desc size) with
  | none =>
    simp only [World.deref, World.store, SharedTexture.delete, World.free, bind, Except.bind]
    refine ⟨none, _, rfl, rfl, rfl, ?_, ⟨[_], rfl⟩, by simp, by simp, by simp⟩
    intro b hb; simp [hb]
  | some dx =>
    by_cases hr : env.wglDXRegisterObjectNV (w.log.length + 3) c._interopHandle dx
        (env.glTextureCreate (w.log.length + 2) size.x size.y) = 0
    · simp only [World.deref, World.store, SharedTexture.delete, World.free, bind, Except.bind,
        hr, List.length_cons]
      refine ⟨none, _, rfl, rfl, rfl, ?_, ⟨[_, _, _], rfl⟩, by simp [hr], by simp, by simp⟩
      intro b hb; simp [hb]
    · simp only [World.deref, World.store, SharedTexture.delete, World.free, bind, Except.bind,
        hr, List.length_cons]
      simp only [if_pos, bne_iff_ne, ne_eq, hr, not_false_eq_true, decide_True, ite_true]
      refine ⟨some w.nextAddr, _, rfl, rfl, rfl, ?_, ⟨[_, _, _], rfl⟩, by simp [hr], by simp,
        ?_⟩
      · intro b hb; simp [hb]
      · intro a ha
        cases ha
        refine ⟨rfl, _, _, _, if_pos rfl, ?_, rfl, rfl, rfl, rfl, rfl, rfl, rfl⟩
        simpa [Nat.add_assoc] using hr
theorem InitializeRenderTarget_same (env : Env) (size : ivec2) (p : DXGIRenderPath) (w : World)
    (a : Nat) (hp : p._sharedTexture = some a) (hs : p._size = size) :
    DXGIRenderPath.InitializeRenderTarget env size p w = .ok (true, p, w) := by
  simp [DXGIRenderPath.InitializeRenderTarget, hp, hs]

theorem InitializeRenderTarget_create (env : Env) (size : ivec2) (p : DXGIRenderPath)
    (w : World) (c : InteropContext) (d : Nat) (hc : w.kInteropContext = some c)
    (hd : c._device = some d)
    (hlive : ∀ a, p._sharedTexture = some a → (w.heap a).isSome = true ∧ a < w.nextAddr)
    (hbranch : p._sharedTexture = none ∨ p._size ≠ size) :
    ∃ tex w', DXGIRenderPath.InitializeRenderTarget env size p w =
        .ok (tex.isSome, { p with _size := size, _sharedTexture := tex }, w') ∧
      w'.kInteropContext = w.kInteropContext ∧ w'.nextAddr = w.nextAddr + 1 ∧
      (∀ b, b ≠ w.nextAddr → p._sharedTexture ≠ some b → w'.heap b = w.heap b) ∧
      (∀ a, p._sharedTexture = some a → w'.heap a = none) ∧
      (∃ evs, w'.log = evs ++ Event.CreateSharedTexture size :: w.log) ∧
      (tex.isSome = true ↔ ∃ dx, env.CreateTexture2D (w.log.length + 1) d
          (SharedTexture.desc size) = some dx ∧
        env.wglDXRegisterObjectNV (w.log.length + 3) c._interopHandle dx
          (env.glTextureCreate (w.log.length + 2) size.x size.y) ≠ 0) ∧
      (tex = none → w'.heap w.nextAddr = none) ∧
      (∀ a, tex = some a → a = w.nextAddr ∧ ∃ t gl dx, w'.heap a = some t ∧
        t._isValid = true ∧ t._isLocked = false ∧ t._presentationTimestamp = -1 ∧
        t._glTexture = some gl ∧ gl.width = size.x ∧ gl.height = size.y ∧
        t._dxTexture = some dx ∧ dx.desc = SharedTexture.desc size) := by
  obtain ⟨r, w1, hcst, hk1, hn1, hheap1, ⟨evs1, hlog1⟩, hiff, hnone, hsome⟩ :=
    CreateSharedTexture_spec env size w c d hc hd
  have hcond : (p._sharedTexture.isNone || size != p._size) = true := by
    rcases hbranch with h | h
    · simp [h]
    · simp [Ne.symm h]
  cases hp : p._sharedTexture with
  | none =>
    have e : DXGIRenderPath.InitializeRenderTarget env size p w =
        .ok (r.isSome, { p with _size := size, _sharedTexture := r }, w1) := by
      unfold DXGIRenderPath.InitializeRenderTarget
      simp only [hcond, if_true, InteropContext.Get, hc, bind, Except.bind, hcst]
      simp only [hp]
    refine ⟨r, w1, e, hk1, hn1, fun b hb _ => hheap1 b hb, by simp, ⟨evs1, hlog1⟩, hiff,
      hnone, hsome⟩
  | some a0 =>
    obtain ⟨hl0, hlt0⟩ := hlive a0 hp
    have hne : a0 ≠ w.nextAddr := Nat.ne_of_lt hlt0
    obtain ⟨t0, ht0⟩ := Option.isSome_iff_exists.mp hl0
    have ht0' : w1.heap a0 = some t0 := by rw [hheap1 a0 hne, ht0]
    obtain ⟨w2, hdel, hgone, hrest, hk2, hn2, evs2, hlog2, _⟩ :=
      delete_spec env a0 w1 t0 c ht0' (by rw [hk1, hc])
    have e : DXGIRenderPath.InitializeRenderTarget env size p w =
        .ok (r.isSome, { p with _size := size, _sharedTexture := r }, w2) := by
      unfold DXGIRenderPath.InitializeRenderTarget
      simp only [hcond, if_true, InteropContext.Get, hc, bind, Except.bind, hcst]
      simp only [hp, hdel]
    refine ⟨r, w2, e, by rw [hk2, hk1], by rw [hn2, hn1], ?_, ?_, ?_, hiff, ?_, ?_⟩
    · intro b hb hb'
      have : b ≠ a0 := fun h => hb' (by rw [h])
      rw [hrest b this, hheap1 b hb]
    · intro a ha; cases ha; exact hgone
    · exact ⟨evs2 ++ evs1, by rw [hlog2, hlog1, List.append_assoc]⟩
    · intro hr
      rw [hrest _ (Ne.symm hne)]
      exact hnone hr
    · intro a ha
      obtain ⟨haeq, t, gl, dx, hh, rest⟩ := hsome a ha
      refine ⟨haeq, t, gl, dx, ?_, rest⟩
      rw [hrest a (by rw [haeq]; exact Ne.symm hne)]
      exact hh
/-! ## C1: repeated `InitializeRenderTarget` with the same size -/

/-- C1 as stated fails: when the first `InitializeRenderTarget ( S )` could not create the
texture (it returned false), the second call with the same `S` calls `CreateSharedTexture`
again and the path then holds a texture it did not hold after the first call. -/
theorem C1_counterexample_retry_after_failed_creation :
    ∃ p1 w1 p2 w2,
      DXGIRenderPath.InitializeRenderTarget envRetry ⟨640, 480⟩ session0 (booted envRetry) =
        .ok (false, p1, w1) ∧
      DXGIRenderPath.InitializeRenderTarget envRetry ⟨640, 480⟩ p1 w1 = .ok (true, p2, w2) ∧
      p1._sharedTexture = none ∧ p2._sharedTexture = some 2 ∧
      w2.log.take (w2.log.length - w1.log.length) =
        [.wglDXRegisterObjectNV 300 1010 2011, .glTextureCreate 640 480,
          .CreateTexture2D 200 (SharedTexture.desc ⟨640, 480⟩),
          .CreateSharedTexture ⟨640, 480⟩] :=
  ⟨_, _, _, _, rfl, rfl, rfl, rfl, rfl⟩

/-- C1, amended: if `InitializeRenderTarget ( S )` returned true, then a second call with the
same `S` right after it returns true and changes neither the path nor the world: the same
texture object is held and nothing is logged, so no `CreateSharedTexture` call is made. -/
theorem C1_same_size_keeps_texture (env : Env) (S : ivec2) (p p1 : DXGIRenderPath)
    (w w1 : World)
    (h1 : DXGIRenderPath.InitializeRenderTarget env S p w = .ok (true, p1, w1)) :
    (∃ a, p1._sharedTexture = some a) ∧
      DXGIRenderPath.InitializeRenderTarget env S p1 w1 = .ok (true, p1, w1) := by
  have key : (∃ a, p1._sharedTexture = some a) ∧ p1._size = S := by
    unfold DXGIRenderPath.InitializeRenderTarget at h1
    split at h1
    · simp only [bind, Except.bind] at h1
      repeat' split at h1
      all_goals first
        | (simp at h1; done)
        | (simp only [Except.ok.injEq, Prod.mk.injEq] at h1
           obtain ⟨hr, hp1, _⟩ := h1
           subst hp1
           exact ⟨Option.isSome_iff_exists.mp hr, rfl⟩)
    · rename_i hcond
      simp only [Except.ok.injEq, Prod.mk.injEq] at h1
      obtain ⟨hr, hp1, _⟩ := h1
      subst hp1
      simp only [Bool.or_eq_true, not_or, Bool.not_eq_true] at hcond
      refine ⟨Option.isSome_iff_exists.mp hr, ?_⟩
      have h2 := hcond.2
      simp only [bne_eq_false_iff_eq] at h2
      exact h2.symm
  obtain ⟨⟨a, ha⟩, hs⟩ := key
  exact ⟨⟨a, ha⟩, InitializeRenderTarget_same env S p1 w1 a ha hs⟩

/-- Witness of C1: a 640x480 target initialised twice in a fresh process. -/
theorem C1_same_size_keeps_texture_witness :
    (∃ a, (started envOk ⟨640, 480⟩).1._sharedTexture = some a) ∧
      DXGIRenderPath.InitializeRenderTarget envOk ⟨640, 480⟩ (started envOk ⟨640, 480⟩).1
          (started envOk ⟨640, 480⟩).2 =
        .ok (true, (started envOk ⟨640, 480⟩).1, (started envOk ⟨640, 480⟩).2) :=
  C1_same_size_keeps_texture envOk ⟨640, 480⟩ session0 _ (booted envOk) _ rfl

/-! ## C2: `InitializeRenderTarget` with a different size -/

/-- C2 as stated fails: the path holds a 640x480 texture, `InitializeRenderTarget` is called
for 1280x720, the surface allocation fails, and the call returns false leaving the path
without any texture. -/
theorem C2_counterexample_creation_fails :
    ∃ p' w',
      (started envSecondFails ⟨640, 480⟩).1._sharedTexture = some 1 ∧
      (started envSecondFails ⟨640, 480⟩).1._size = ⟨640, 480⟩ ∧
      DXGIRenderPath.InitializeRenderTarget envSecondFails ⟨1280, 720⟩
          (started envSecondFails ⟨640, 480⟩).1 (started envSecondFails ⟨640, 480⟩).2 =
        .ok (false, p', w') ∧
      p'._sharedTexture = none :=
  ⟨_, _, rfl, rfl, rfl, rfl⟩

/-- C2, amended: a path holding a live texture under size key `S` that is asked for a
different size `S'` destroys the old texture and tries to create a new one.  The call returns
true exactly when the surface allocation and the bridge registration succeed; then the path
holds a valid, unlocked texture that is a different object from the old one, whose GL texture
is `S'` and whose surface has `S'` as `UINT` width and height.  Otherwise it returns false and
the path holds no texture.  The size key is `S'` in both cases. -/
theorem C2_resize_recreates (env : Env) (S' : ivec2) (p : DXGIRenderPath) (w : World)
    (c : InteropContext) (d a0 : Nat) (t0 : SharedTexture)
    (hc : w.kInteropContext = some c) (hd : c._device = some d)
    (hp : p._sharedTexture = some a0) (ht0 : w.heap a0 = some t0) (hwf : a0 < w.nextAddr)
    (hne : p._size ≠ S') :
    ∃ r p' w', DXGIRenderPath.InitializeRenderTarget env S' p w = .ok (r, p', w') ∧
      p'._size = S' ∧ w'.heap a0 = none ∧
      (r = true ↔ ∃ dx, env.CreateTexture2D (w.log.length + 1) d
          (SharedTexture.desc S') = some dx ∧
        env.wglDXRegisterObjectNV (w.log.length + 3) c._interopHandle dx
          (env.glTextureCreate (w.log.length + 2) S'.x S'.y) ≠ 0) ∧
      (r = true → ∃ a t gl dx, p'._sharedTexture = some a ∧ a ≠ a0 ∧ w'.heap a = some t ∧
        t._isValid = true ∧ t._isLocked = false ∧
        t._glTexture = some gl ∧ gl.width = S'.x ∧ gl.height = S'.y ∧
        t._dxTexture = some dx ∧ dx.desc.Width = (S'.x % 2 ^ 32).toNat ∧
        dx.desc.Height = (S'.y % 2 ^ 32).toNat) ∧
      (r = false → p'._sharedTexture = none) := by
  obtain ⟨tex, w', e, _, _, _, hgone, _, hiff, _, hsome⟩ :=
    InitializeRenderTarget_create env S' p w c d hc hd
      (fun a ha => by
        rw [hp] at ha; cases ha
        exact ⟨by rw [ht0]; rfl, hwf⟩)
      (Or.inr hne)
  refine ⟨_, _, _, e, rfl, hgone a0 hp, hiff, ?_, ?_⟩
  · intro hr
    obtain ⟨a, ha⟩ := Option.isSome_iff_exists.mp hr
    obtain ⟨haeq, t, gl, dx, hh, hv, hl, _, hgl, hw, hh', hdx, hdesc⟩ := hsome a ha
    refine ⟨a, t, gl, dx, ha, ?_, hh, hv, hl, hgl, hw, hh', hdx, ?_, ?_⟩
    · rw [haeq]; exact (Nat.ne_of_lt hwf).symm
    · rw [hdesc]; rfl
    · rw [hdesc]; rfl
  · intro hr
    cases tex with
    | none => rfl
    | some a => simp at hr

/-- Witness of C2: a 640x480 target resized to 1280x720 with every platform call succeeding. -/
theorem C2_resize_recreates_witness :
    ∃ r p' w', DXGIRenderPath.InitializeRenderTarget envOk ⟨1280, 720⟩
        (started envOk ⟨640, 480⟩).1 (started envOk ⟨640, 480⟩).2 = .ok (r, p', w') ∧
      p'._size = ⟨1280, 720⟩ ∧ w'.heap 1 = none ∧
      (r = true ↔ ∃ dx, envOk.CreateTexture2D ((started envOk ⟨640, 480⟩).2.log.length + 1) 200
          (SharedTexture.desc ⟨1280, 720⟩) = some dx ∧
        envOk.wglDXRegisterObjectNV ((started envOk ⟨640, 480⟩).2.log.length + 3) 300 dx
          (envOk.glTextureCreate ((started envOk ⟨640, 480⟩).2.log.length + 2) 1280 720) ≠ 0) ∧
      (r = true → ∃ a t gl dx, p'._sharedTexture = some a ∧ a ≠ 1 ∧ w'.heap a = some t ∧
        t._isValid = true ∧ t._isLocked = false ∧
        t._glTexture = some gl ∧ gl.width = 1280 ∧ gl.height = 720 ∧
        t._dxTexture = some dx ∧ dx.desc.Width = ((1280 : Int) % 2 ^ 32).toNat ∧
        dx.desc.Height = ((720 : Int) % 2 ^ 32).toNat) ∧
      (r = false → p'._sharedTexture = none) :=
  C2_resize_recreates envOk ⟨1280, 720⟩ (started envOk ⟨640, 480⟩).1
    (started envOk ⟨640, 480⟩).2
    { _device := some 200, _dxgiManager := some 100, _dxgiResetToken := 5,
      _interopHandle := 300, _isValid := true }
    200 1 _ rfl rfl rfl rfl (by decide) (by decide)
/-! ## C3: a lease on an unlocked texture -/

/-- C3 as stated fails: the texture is valid and unlocked, the bridge refuses the lock, and
the texture is not locked while the lease lives. -/
theorem C3_counterexample_lock_refused :
    ∃ t l w1,
      (started envLockFails ⟨640, 480⟩).2.heap 1 = some t ∧ t._isValid = true ∧
      t._isLocked = false ∧
      DXGIRenderPathFrameLease.ctor envLockFails (some 1) (started envLockFails ⟨640, 480⟩).2 =
        .ok (l, w1) ∧
      SharedTexture.IsLocked 1 w1 = .ok false :=
  ⟨_, _, _, rfl, rfl, rfl, rfl, rfl⟩

/-- C3, amended: constructing a lease on an unlocked texture makes exactly one bridge lock
request and `IsLocked ( )` while the lease lives is the answer to it; destroying the lease
makes exactly one bridge unlock request if the texture is locked and none otherwise, and
`IsLocked ( )` afterwards is true only when the lock succeeded and the unlock was refused.
So when both bridge calls succeed the texture is locked during the lease and unlocked after. -/
theorem C3_lease_locks_and_unlocks (env : Env) (a : Nat) (w : World) (t : SharedTexture)
    (c : InteropContext) (ht : w.heap a = some t) (hu : t._isLocked = false)
    (hc : w.kInteropContext = some c) :
    ∃ l w1 w2, DXGIRenderPathFrameLease.ctor env (some a) w = .ok (l, w1) ∧
      SharedTexture.IsLocked a w1 =
        .ok (env.wglDXLockObjectsNV (w.log.length + 1) c._interopHandle t._shareHandle) ∧
      l.dtor env w1 = .ok w2 ∧
      SharedTexture.IsLocked a w2 =
        .ok (env.wglDXLockObjectsNV (w.log.length + 1) c._interopHandle t._shareHandle &&
          !env.wglDXUnlockObjectsNV (w.log.length + 3) c._interopHandle t._shareHandle) ∧
      w2.log =
        (if env.wglDXLockObjectsNV (w.log.length + 1) c._interopHandle t._shareHandle then
          [Event.wglDXUnlockObjectsNV c._interopHandle t._shareHandle, Event.Unlock a]
        else []) ++
        [Event.wglDXLockObjectsNV c._interopHandle t._shareHandle, Event.Lock a] ++ w.log := by
  have hctor : DXGIRenderPathFrameLease.ctor env (some a) w = .ok ({ _texture := some a },
      ((w.emit (.Lock a)).emit (.wglDXLockObjectsNV c._interopHandle t._shareHandle)).store a
        { t with _isLocked :=
          env.wglDXLockObjectsNV (w.log.length + 1) c._interopHandle t._shareHandle }) := by
    simp only [DXGIRenderPathFrameLease.ctor, Lock_eq env a w t c ht hu hc, bind, Except.bind]
  revert hctor
  generalize env.wglDXLockObjectsNV (w.log.length + 1) c._interopHandle t._shareHandle = r1
  intro hctor
  cases r1
  · have hdtor : DXGIRenderPathFrameLease.dtor env { _texture := some a }
        (((w.emit (.Lock a)).emit (.wglDXLockObjectsNV c._interopHandle t._shareHandle)).store a
          { t with _isLocked := false }) =
        .ok (((w.emit (.Lock a)).emit
          (.wglDXLockObjectsNV c._interopHandle t._shareHandle)).store a
          { t with _isLocked := false }) := by
      simp [DXGIRenderPathFrameLease.dtor, SharedTexture.IsLocked, World.deref,
        World.store, bind, Except.bind]
    refine ⟨_, _, _, hctor, ?_, hdtor, ?_, ?_⟩
    · simp [SharedTexture.IsLocked, World.deref, World.store, bind, Except.bind]
    · simp [SharedTexture.IsLocked, World.deref, World.store, bind, Except.bind]
    · simp [World.store, World.emit]
  · have hdtor : DXGIRenderPathFrameLease.dtor env { _texture := some a }
        (((w.emit (.Lock a)).emit (.wglDXLockObjectsNV c._interopHandle t._shareHandle)).store a
          { t with _isLocked := true }) =
        .ok (if env.wglDXUnlockObjectsNV (w.log.length + 3) c._interopHandle t._shareHandle then
          ((((w.emit (.Lock a)).emit (.wglDXLockObjectsNV c._interopHandle t._shareHandle)).emit
            (.Unlock a)).emit (.wglDXUnlockObjectsNV c._interopHandle t._shareHandle)).store a
            { t with _isLocked := false }
          else
          (((((w.emit (.Lock a)).emit (.wglDXLockObjectsNV c._interopHandle t._shareHandle)).store
            a { t with _isLocked := true }).emit
            (.Unlock a)).emit (.wglDXUnlockObjectsNV c._interopHandle t._shareHandle))) := by
      simp only [DXGIRenderPathFrameLease.dtor, SharedTexture.IsLocked, SharedTexture.Unlock,
        assert, InteropContext.Get, World.deref, World.store, World.emit, bind, Except.bind,
        if_true, hc, List.length_cons, Bool.or_true]
      cases env.wglDXUnlockObjectsNV (w.log.length + 3) c._interopHandle t._shareHandle
      · simp
      · simp
        funext b
        split <;> rfl
    refine ⟨_, _, _, hctor, ?_, hdtor, ?_, ?_⟩
    · simp [SharedTexture.IsLocked, World.deref, World.store, bind, Except.bind]
    · cases env.wglDXUnlockObjectsNV (w.log.length + 3) c._interopHandle t._shareHandle <;>
        simp [SharedTexture.IsLocked, World.deref, World.store, World.emit, bind, Except.bind]
    · cases env.wglDXUnlockObjectsNV (w.log.length + 3) c._interopHandle t._shareHandle <;>
        simp [World.store, World.emit]
/-- Witness of C3: a lease on the 640x480 texture of a fresh process, every bridge call
succeeding: locked during the lease, unlocked after it. -/
theorem C3_lease_locks_and_unlocks_witness :
    ∃ l w1 w2,
      DXGIRenderPathFrameLease.ctor envOk (some 1) (started envOk ⟨640, 480⟩).2 = .ok (l, w1) ∧
      SharedTexture.IsLocked 1 w1 = .ok true ∧ l.dtor envOk w1 = .ok w2 ∧
      SharedTexture.IsLocked 1 w2 = .ok false ∧
      w2.log = [Event.wglDXUnlockObjectsNV 300 3010, Event.Unlock 1,
        Event.wglDXLockObjectsNV 300 3010, Event.Lock 1] ++ (started envOk ⟨640, 480⟩).2.log :=
  C3_lease_locks_and_unlocks envOk 1 (started envOk ⟨640, 480⟩).2 _
    { _device := some 200, _dxgiManager := some 100, _dxgiResetToken := 5,
      _interopHandle := 300, _isValid := true } rfl rfl rfl

/-! ## C5: sequences of `Lock` and `Unlock` -/

theorem lockCalls_spec (env : Env) (a : Nat) (c : InteropContext) (calls : List LockCall) :
    ∀ (w : World) (t : SharedTexture), w.heap a = some t → w.kInteropContext = some c →
      respectsContract env a calls w = true →
      ∃ rs w' t', runLockCalls env a calls w = .ok (rs, w') ∧ rs.length = calls.length ∧
        w'.heap a = some t' ∧ w'.kInteropContext = some c ∧
        t'._isLocked = (match lastSuccessful (calls.zip rs) with
          | some call => decide (call = LockCall.Lock)
          | none => t._isLocked) := by
  induction calls with
  | nil =>
    intro w t ht hc _
    exact ⟨[], w, t, rfl, rfl, ht, hc, rfl⟩
  | cons call calls ih =>
    intro w t ht hc hres
    simp only [respectsContract, SharedTexture.IsLocked, World.deref, ht, bind, Except.bind,
      Bool.and_eq_true] at hres
    obtain ⟨hpre, hrest⟩ := hres
    cases call with
    | Lock =>
      have hu : t._isLocked = false := by simpa using hpre
      have hl := Lock_eq env a w t c ht hu hc
      simp only [LockCall.run, hl] at hrest
      obtain ⟨rs, w', t', hrun, hlen, ht', hc', hfin⟩ := ih _
        { t with _isLocked :=
          env.wglDXLockObjectsNV (w.log.length + 1) c._interopHandle t._shareHandle }
        (if_pos rfl) (by simp [World.store, World.emit, hc]) hrest
      refine ⟨env.wglDXLockObjectsNV (w.log.length + 1) c._interopHandle t._shareHandle :: rs,
        w', t', by simp only [runLockCalls, LockCall.run, hl, hrun, bind, Except.bind],
        by simp [hlen], ht', hc', ?_⟩
      rw [hfin]
      have hz : (LockCall.Lock :: calls).zip
          (env.wglDXLockObjectsNV (w.log.length + 1) c._interopHandle t._shareHandle :: rs) =
          (LockCall.Lock,
            env.wglDXLockObjectsNV (w.log.length + 1) c._interopHandle t._shareHandle) ::
            calls.zip rs := rfl
      rw [hz]
      generalize calls.zip rs = hist
      simp only [lastSuccessful]
      cases lastSuccessful hist with
      | some x => rfl
      | none =>
        cases env.wglDXLockObjectsNV (w.log.length + 1) c._interopHandle t._shareHandle <;>
          simp [hu]
    | Unlock =>
      have hu : t._isLocked = true := by simpa using hpre
      have hl := Unlock_eq env a w t c ht hu hc
      cases hr : env.wglDXUnlockObjectsNV (w.log.length + 1) c._interopHandle t._shareHandle
      · simp only [hr, Bool.false_eq_true, if_false] at hl
        simp only [LockCall.run, hl] at hrest
        obtain ⟨rs, w', t', hrun, hlen, ht', hc', hfin⟩ := ih _ t
          (by simp [World.emit, ht]) (by simp [World.emit, hc]) hrest
        refine ⟨false :: rs, w', t', by simp only [runLockCalls, LockCall.run, hl, hrun, bind,
          Except.bind], by simp [hlen], ht', hc', ?_⟩
        rw [hfin]
        have hz : (LockCall.Unlock :: calls).zip (false :: rs) =
            (LockCall.Unlock, false) :: calls.zip rs := rfl
        rw [hz]
        generalize calls.zip rs = hist
        simp only [lastSuccessful]
        cases lastSuccessful hist with
        | some x => rfl
        | none => simp
      · simp only [hr, if_true] at hl
        simp only [LockCall.run, hl] at hrest
        obtain ⟨rs, w', t', hrun, hlen, ht', hc', hfin⟩ := ih _ { t with _isLocked := false }
          (if_pos rfl) (by simp [World.store, World.emit, hc]) hrest
        refine ⟨true :: rs, w', t', by simp only [runLockCalls, LockCall.run, hl, hrun, bind,
          Except.bind], by simp [hlen], ht', hc', ?_⟩
        rw [hfin]
        have hz : (LockCall.Unlock :: calls).zip (true :: rs) =
            (LockCall.Unlock, true) :: calls.zip rs := rfl
        rw [hz]
        generalize calls.zip rs = hist
        simp only [lastSuccessful]
        cases lastSuccessful hist with
        | some x => rfl
        | none => simp
/-- C5: on an unlocked texture, every sequence of `Lock ( )` / `Unlock ( )` calls that respects
the call contract runs to completion whatever the bridge answers, and `IsLocked ( )` afterwards
is true exactly when some call returned true and the most recent such call was a `Lock ( )`;
moreover a further in-contract call that returns false leaves `IsLocked ( )` as it was. -/
theorem C5_IsLocked_reflects_last_success (env : Env) (a : Nat) (c : InteropContext)
    (calls : List LockCall) (w : World) (t : SharedTexture) (ht : w.heap a = some t)
    (hu : t._isLocked = false) (hc : w.kInteropContext = some c)
    (hres : respectsContract env a calls w = true) :
    ∃ rs w', runLockCalls env a calls w = .ok (rs, w') ∧ rs.length = calls.length ∧
      SharedTexture.IsLocked a w' =
        .ok (decide (lastSuccessful (calls.zip rs) = some LockCall.Lock)) ∧
      ∀ (call : LockCall) (w'' : World), respectsContract env a [call] w' = true →
        call.run env a w' = .ok (false, w'') →
        SharedTexture.IsLocked a w'' = SharedTexture.IsLocked a w' := by
  obtain ⟨rs, w', t', hrun, hlen, ht', hc', hfin⟩ := lockCalls_spec env a c calls w t ht hc hres
  refine ⟨rs, w', hrun, hlen, ?_, ?_⟩
  · simp only [SharedTexture.IsLocked, World.deref, ht', bind, Except.bind, hfin]
    cases lastSuccessful (calls.zip rs) with
    | none => simp [hu]
    | some x => cases x <;> simp
  · intro call w'' hpre hfail
    simp only [respectsContract, SharedTexture.IsLocked, World.deref, ht', bind, Except.bind,
      Bool.and_eq_true] at hpre
    cases call with
    | Lock =>
      have hu' : t'._isLocked = false := by simpa using hpre.1
      simp only [LockCall.run, Lock_eq env a w' t' c ht' hu' hc', Except.ok.injEq,
        Prod.mk.injEq] at hfail
      obtain ⟨hr, hw⟩ := hfail
      subst hw
      simp [SharedTexture.IsLocked, World.deref, World.store, ht', bind, Except.bind, hr, hu']
    | Unlock =>
      have hu' : t'._isLocked = true := by simpa using hpre.1
      have hl := Unlock_eq env a w' t' c ht' hu' hc'
      simp only [LockCall.run] at hfail
      rw [hl] at hfail
      split at hfail
      · simp at hfail
      · simp only [Except.ok.injEq, Prod.mk.injEq, true_and] at hfail
        subst hfail
        simp [SharedTexture.IsLocked, World.deref, World.emit, bind, Except.bind]

/-- Witness of C5: `Lock`, `Unlock`, `Unlock` against a bridge that grants the lock and refuses
both unlocks: the texture is still locked, the last successful call being the `Lock`. -/
theorem C5_IsLocked_reflects_last_success_witness :
    ∃ rs w', runLockCalls envUnlockFails 1 [.Lock, .Unlock, .Unlock]
        (started envUnlockFails ⟨640, 480⟩).2 = .ok (rs, w') ∧
      rs.length = [LockCall.Lock, LockCall.Unlock, LockCall.Unlock].length ∧
      SharedTexture.IsLocked 1 w' =
        .ok (decide (lastSuccessful ([LockCall.Lock, LockCall.Unlock, LockCall.Unlock].zip rs) =
          some LockCall.Lock)) ∧
      ∀ (call : LockCall) (w'' : World), respectsContract envUnlockFails 1 [call] w' = true →
        call.run envUnlockFails 1 w' = .ok (false, w'') →
        SharedTexture.IsLocked 1 w'' = SharedTexture.IsLocked 1 w' :=
  C5_IsLocked_reflects_last_success envUnlockFails 1
    { _device := some 200, _dxgiManager := some 100, _dxgiResetToken := 5,
      _interopHandle := 300, _isValid := true }
    [.Lock, .Unlock, .Unlock] (started envUnlockFails ⟨640, 480⟩).2 _ rfl rfl rfl rfl

/-- Witness of C6: unlocking the leased 640x480 texture of a fresh process, once against a
bridge that grants the unlock and once against one that refuses it. -/
theorem C6_Unlock_success_and_failure_witness :
    (∃ w', SharedTexture.Unlock envOk 1 (leased envOk ⟨640, 480⟩) = .ok (true, w') ∧
      SharedTexture.IsLocked 1 w' = .ok false) ∧
    (∃ w', SharedTexture.Unlock envUnlockFails 1 (leased envUnlockFails ⟨640, 480⟩) =
        .ok (false, w') ∧
      w'.heap = (leased envUnlockFails ⟨640, 480⟩).heap ∧
      SharedTexture.IsLocked 1 w' = .ok true) := by
  constructor
  · obtain ⟨r, w', h, hr, hok, _⟩ := C6_Unlock_success_and_failure envOk 1
      (leased envOk ⟨640, 480⟩) _
      { _device := some 200, _dxgiManager := some 100, _dxgiResetToken := 5,
        _interopHandle := 300, _isValid := true } rfl rfl rfl
    have hr' : r = true := hr
    subst hr'
    exact ⟨w', h, (hok rfl).2⟩
  · obtain ⟨r, w', h, hr, _, hfail⟩ := C6_Unlock_success_and_failure envUnlockFails 1
      (leased envUnlockFails ⟨640, 480⟩) _
      { _device := some 200, _dxgiManager := some 100, _dxgiResetToken := 5,
        _interopHandle := 300, _isValid := true } rfl rfl rfl
    have hr' : r = false := hr
    subst hr'
    exact ⟨w', h, hfail rfl⟩

/-- Witness of C7: a frame processed at time 40 on the 640x480 target of a fresh process. -/
theorem C7_ProcessFrame_result_witness :
    ∃ r p' w', DXGIRenderPath.ProcessFrame envOk 40 (started envOk ⟨640, 480⟩).1
        (started envOk ⟨640, 480⟩).2 = .ok (r, p', w') ∧
      r = true ∧ SharedTexture.GetPresentationTimestamp 1 w' = .ok 40 ∧
      p'._owner_hasNewFrame = true := by
  obtain ⟨r, p', w', h, hheld, _⟩ := C7_ProcessFrame_result envOk 40
    (started envOk ⟨640, 480⟩).1 (started envOk ⟨640, 480⟩).2
    (fun a ha => by
      have : a = 1 := by
        have h1 : (started envOk ⟨640, 480⟩).1._sharedTexture = some 1 := rfl
        rw [h1] at ha
        exact (Option.some.inj ha).symm
      subst this
      rfl)
  obtain ⟨hr, hts, _, hflag, _, _⟩ := hheld 1 _ rfl rfl
  refine ⟨r, p', w', h, ?_, hts, ?_⟩
  · rw [hr]; rfl
  · rw [hflag, hr]; rfl

/-- Witness of C4: the lease of a session that never initialised a render target. -/
theorem C4_null_lease_witness :
    ∃ l, DXGIRenderPath.GetFrameLease envOk session0 (booted envOk) = .ok (l, booted envOk) ∧
      DXGIRenderPathFrameLease.ctor envOk none (booted envOk) = .ok (l, booted envOk) ∧
      ∀ w2 : World, l.IsValid w2 = .ok false ∧ l.ToTexture w2 = .ok none ∧
        l.GetPresentationTimeStamp w2 = .ok (-1) ∧ l.dtor envOk w2 = .ok w2 :=
  C4_null_lease envOk session0 (booted envOk) rfl
/-! ## C8: timestamps observed within one session -/

theorem InitializeRenderTarget_create_fault (env : Env) (size : ivec2) (p : DXGIRenderPath)
    (w : World) (hp : p._sharedTexture = none)
    (hbad : w.kInteropContext = none ∨ ∃ c, w.kInteropContext = some c ∧ c._device = none) :
    ∃ f, DXGIRenderPath.InitializeRenderTarget env size p w = .error f := by
  rcases hbad with h | ⟨c, hc, hd⟩
  · exact ⟨_, by simp [DXGIRenderPath.InitializeRenderTarget, hp, InteropContext.Get, h, bind,
      Except.bind]; rfl⟩
  · exact ⟨_, by simp [DXGIRenderPath.InitializeRenderTarget, hp, InteropContext.Get, hc, hd,
      InteropContext.CreateSharedTexture, SharedTexture.make_unique, SharedTexture.ctor,
      World.emit, bind, Except.bind]; rfl⟩

theorem observe_none (p : DXGIRenderPath) (w : World) (hp : p._sharedTexture = none) :
    p.observe w = .ok (-1) := by
  simp [DXGIRenderPath.observe, DXGIRenderPathFrameLease.GetPresentationTimeStamp, hp]

theorem observe_some (p : DXGIRenderPath) (w : World) (a : Nat) (t : SharedTexture)
    (hp : p._sharedTexture = some a) (ht : w.heap a = some t) :
    p.observe w = .ok t._presentationTimestamp := by
  simp [DXGIRenderPath.observe, DXGIRenderPathFrameLease.GetPresentationTimeStamp, hp,
    SharedTexture.GetPresentationTimestamp, World.deref, ht, bind, Except.bind]

theorem step_observe (env : Env) (S : ivec2) (call : SessionCall) (p p' : DXGIRenderPath)
    (w w' : World) (r : Bool)
    (hinv : ∀ a, p._sharedTexture = some a →
      p._size = S ∧ (w.heap a).isSome = true ∧ a < w.nextAddr)
    (hsize : ∀ size, call = .InitializeRenderTarget size → size = S)
    (h : call.run env p w = .ok (r, p', w')) :
    (∀ a, p'._sharedTexture = some a →
      p'._size = S ∧ (w'.heap a).isSome = true ∧ a < w'.nextAddr) ∧
    ∃ v o, p.observe w = .ok v ∧ p'.observe w' = .ok o ∧
      (o = v ∨ call = .ProcessFrame o) := by
  cases hp : p._sharedTexture with
  | none =>
    cases call with
    | ProcessFrame t =>
      simp only [SessionCall.run, ProcessFrame_none env t p w hp, Except.ok.injEq,
        Prod.mk.injEq] at h
      obtain ⟨_, hp', hw'⟩ := h
      subst hp' hw'
      exact ⟨hinv, -1, -1, observe_none p w hp, observe_none p w hp, Or.inl rfl⟩
    | InitializeRenderTarget size =>
      have hS := hsize size rfl
      subst hS
      simp only [SessionCall.run] at h
      cases hc : w.kInteropContext with
      | none =>
        obtain ⟨f, hf⟩ := InitializeRenderTarget_create_fault env size p w hp (Or.inl hc)
        rw [hf] at h; cases h
      | some c =>
        cases hd : c._device with
        | none =>
          obtain ⟨f, hf⟩ := InitializeRenderTarget_create_fault env size p w hp
            (Or.inr ⟨c, hc, hd⟩)
          rw [hf] at h; cases h
        | some d =>
          obtain ⟨tex, w1, e, _, hn, _, _, _, _, _, hsome⟩ :=
            InitializeRenderTarget_create env size p w c d hc hd
              (fun a ha => by rw [hp] at ha; cases ha) (Or.inl hp)
          rw [e] at h
          simp only [Except.ok.injEq, Prod.mk.injEq] at h
          obtain ⟨_, hp', hw'⟩ := h
          subst hp' hw'
          cases tex with
          | none =>
            exact ⟨(fun a ha => by cases ha), -1, -1, observe_none p w hp,
              observe_none _ _ rfl, Or.inl rfl⟩
          | some a =>
            obtain ⟨haeq, t, _, _, hh, _, _, hpts, _⟩ := hsome a rfl
            refine ⟨?_, -1, -1, observe_none p w hp, ?_, Or.inl rfl⟩
            · intro a' ha'
              cases ha'
              exact ⟨rfl, by rw [hh]; rfl, by rw [hn, haeq]; exact Nat.lt_succ_self _⟩
            · rw [observe_some _ w1 a t rfl hh, hpts]
  | some a =>
    obtain ⟨hsz, hlive, hlt⟩ := hinv a hp
    obtain ⟨t0, ht0⟩ := Option.isSome_iff_exists.mp hlive
    cases call with
    | ProcessFrame t =>
      simp only [SessionCall.run, ProcessFrame_eq env t p w a t0 hp ht0, Except.ok.injEq,
        Prod.mk.injEq] at h
      obtain ⟨_, hp', hw'⟩ := h
      subst hp' hw'
      have hp2 : (if env.TransferVideoFrame w.log.length p._owner_mediaEngine t0.DXTextureHandle
          ⟨0, 0, p._size.x, p._size.y⟩ = true then { p with _owner_hasNewFrame := true }
          else p)._sharedTexture = some a := by
        split <;> simp [hp]
      have hs2 : (if env.TransferVideoFrame w.log.length p._owner_mediaEngine t0.DXTextureHandle
          ⟨0, 0, p._size.x, p._size.y⟩ = true then { p with _owner_hasNewFrame := true }
          else p)._size = S := by
        split <;> simp [hsz]
      refine ⟨?_, t0._presentationTimestamp, t, observe_some p w a t0 hp ht0, ?_, Or.inr rfl⟩
      · intro a' ha'
        rw [hp2] at ha'
        cases ha'
        exact ⟨hs2, by simp [World.store], hlt⟩
      · rw [observe_some _ _ a { t0 with _presentationTimestamp := t } hp2
          (by simp [World.store])]
    | InitializeRenderTarget size =>
      have hS := hsize size rfl
      subst hS
      simp only [SessionCall.run, InitializeRenderTarget_same env size p w a hp hsz,
        Except.ok.injEq, Prod.mk.injEq] at h
      obtain ⟨_, hp', hw'⟩ := h
      subst hp' hw'
      exact ⟨fun a' ha' => hinv a' ha', _, _,
        observe_some p w a t0 hp ht0,
        observe_some p w a t0 hp ht0, Or.inl rfl⟩
theorem observations_lower_bound (env : Env) (S : ivec2) (b : LONGLONG)
    (calls : List SessionCall) :
    ∀ (p : DXGIRenderPath) (w : World) (v : LONGLONG),
      (∀ a, p._sharedTexture = some a →
        p._size = S ∧ (w.heap a).isSome = true ∧ a < w.nextAddr) →
      p.observe w = .ok v → b ≤ v →
      (∀ s ∈ requestedSizes calls, s = S) → (∀ t ∈ suppliedTimestamps calls, b ≤ t) →
      ∀ o ∈ observations env calls p w, b ≤ o := by
  induction calls with
  | nil => intro p w v _ _ _ _ _ o ho; simp [observations] at ho
  | cons call calls ih =>
    intro p w v hinv hv hb hsizes hts o ho
    simp only [observations] at ho
    cases hrun : call.run env p w with
    | error f => simp [hrun] at ho
    | ok res =>
      obtain ⟨r, p', w'⟩ := res
      obtain ⟨hinv', v0, o1, hv0, ho1, hcase⟩ := step_observe env S call p p' w w' r hinv
        (fun size hs => hsizes size (by simp [hs, requestedSizes])) hrun
      have hvv : v0 = v := by rw [hv] at hv0; cases hv0; rfl
      subst hvv
      have hbo1 : b ≤ o1 := by
        rcases hcase with h | h
        · rw [h]; exact hb
        · exact hts o1 (by simp [h, suppliedTimestamps])
      simp only [hrun, ho1, List.singleton_append, List.mem_cons] at ho
      rcases ho with h | h
      · rw [h]; exact hbo1
      · refine ih p' w' o1 hinv' ho1 hbo1 ?_ ?_ o h
        · intro s hs
          apply hsizes
          cases call <;> simp [requestedSizes, hs]
        · intro t ht
          apply hts
          cases call <;> simp [suppliedTimestamps, ht]

theorem observations_pairwise (env : Env) (S : ivec2) (calls : List SessionCall) :
    ∀ (p : DXGIRenderPath) (w : World) (v : LONGLONG),
      (∀ a, p._sharedTexture = some a →
        p._size = S ∧ (w.heap a).isSome = true ∧ a < w.nextAddr) →
      p.observe w = .ok v →
      (∀ s ∈ requestedSizes calls, s = S) →
      (suppliedTimestamps calls).Pairwise (· ≤ ·) →
      (∀ t ∈ suppliedTimestamps calls, v ≤ t) →
      (observations env calls p w).Pairwise (· ≤ ·) := by
  induction calls with
  | nil => intro p w v _ _ _ _ _; simp [observations]
  | cons call calls ih =>
    intro p w v hinv hv hsizes hsorted hts
    simp only [observations]
    cases hrun : call.run env p w with
    | error f => simp
    | ok res =>
      obtain ⟨r, p', w'⟩ := res
      obtain ⟨hinv', v0, o1, hv0, ho1, hcase⟩ := step_observe env S call p p' w w' r hinv
        (fun size hs => hsizes size (by simp [hs, requestedSizes])) hrun
      have hvv : v0 = v := by rw [hv] at hv0; cases hv0; rfl
      subst hvv
      have hsizes' : ∀ s ∈ requestedSizes calls, s = S := by
        intro s hs
        apply hsizes
        cases call <;> simp [requestedSizes, hs]
      have hsorted' : (suppliedTimestamps calls).Pairwise (· ≤ ·) := by
        cases call with
        | InitializeRenderTarget size => simpa [suppliedTimestamps] using hsorted
        | ProcessFrame t =>
          simp only [suppliedTimestamps, List.pairwise_cons] at hsorted
          exact hsorted.2
      have hts' : ∀ t ∈ suppliedTimestamps calls, o1 ≤ t := by
        intro t ht
        rcases hcase with h | h
        · rw [h]
          apply hts
          cases call <;> simp [suppliedTimestamps, ht]
        · subst h
          simp only [suppliedTimestamps, List.pairwise_cons] at hsorted
          exact hsorted.1 t ht
      simp only [ho1, List.singleton_append, List.pairwise_cons]
      exact ⟨observations_lower_bound env S o1 calls p' w' o1 hinv' ho1 (le_refl _) hsizes' hts',
        ih p' w' o1 hinv' ho1 hsizes' hsorted' hts'⟩

/-- C8 as stated fails: `ProcessFrame` stores whatever timestamp it is given, so a smaller
timestamp after a larger one is observed as a decrease (10 then 5), and a re-created texture
starts again at the `-1` sentinel (10 then -1). -/
theorem C8_counterexample_decreasing_observation :
    observations envOk [.InitializeRenderTarget ⟨640, 480⟩, .ProcessFrame 10, .ProcessFrame 5]
        session0 (booted envOk) = [-1, 10, 5] ∧
    observations envOk [.InitializeRenderTarget ⟨640, 480⟩, .ProcessFrame 10,
        .InitializeRenderTarget ⟨1280, 720⟩] session0 (booted envOk) = [-1, 10, -1] :=
  ⟨rfl, rfl⟩

/-- C8, amended: for a session that starts without a texture, and every sequence of
`InitializeRenderTarget` and `ProcessFrame` calls in which every `InitializeRenderTarget`
requests the same size `S` and the timestamps passed to `ProcessFrame` are non-decreasing and
at least `-1`, each observed timestamp is at least every timestamp observed earlier, starting
from the `-1` sentinel. -/
theorem C8_observed_timestamps_monotone (env : Env) (S : ivec2) (calls : List SessionCall)
    (p : DXGIRenderPath) (w : World) (hp : p._sharedTexture = none)
    (hsizes : ∀ s ∈ requestedSizes calls, s = S)
    (hsorted : (suppliedTimestamps calls).Pairwise (· ≤ ·))
    (hts : ∀ t ∈ suppliedTimestamps calls, -1 ≤ t) :
    ((-1 : LONGLONG) :: observations env calls p w).Pairwise (· ≤ ·) := by
  have hinv : ∀ a, p._sharedTexture = some a →
      p._size = S ∧ (w.heap a).isSome = true ∧ a < w.nextAddr := by
    intro a ha; rw [hp] at ha; cases ha
  rw [List.pairwise_cons]
  exact ⟨observations_lower_bound env S (-1) calls p w (-1) hinv (observe_none p w hp)
      (le_refl _) hsizes hts,
    observations_pairwise env S calls p w (-1) hinv (observe_none p w hp) hsizes hsorted hts⟩

/-- Witness of C8: a fresh session, one size, timestamps 10, 10, 12. -/
theorem C8_observed_timestamps_monotone_witness :
    ((-1 : LONGLONG) :: observations envOk
      [.ProcessFrame 3, .InitializeRenderTarget ⟨640, 480⟩, .ProcessFrame 10,
        .InitializeRenderTarget ⟨640, 480⟩, .ProcessFrame 10, .ProcessFrame 12]
      session0 (booted envOk)).Pairwise (· ≤ ·) :=
  C8_observed_timestamps_monotone envOk ⟨640, 480⟩ _ session0 (booted envOk) rfl
    (by decide) (by decide) (by decide)
/-! ## Frame lemmas: no call writes `kInteropContext` once it is set -/

theorem Lock_ctx (env : Env) (a : Nat) (w w' : World) (r : Bool)
    (h : SharedTexture.Lock env a w = .ok (r, w')) :
    w'.kInteropContext = w.kInteropContext := by
  unfold SharedTexture.Lock at h
  simp only [bind, Except.bind] at h
  repeat' split at h
  all_goals first
    | (simp at h; done)
    | (simp only [Except.ok.injEq, Prod.mk.injEq] at h
       obtain ⟨_, hw⟩ := h
       subst hw
       rfl)

theorem Unlock_ctx (env : Env) (a : Nat) (w w' : World) (r : Bool)
    (h : SharedTexture.Unlock env a w = .ok (r, w')) :
    w'.kInteropContext = w.kInteropContext := by
  unfold SharedTexture.Unlock at h
  simp only [bind, Except.bind] at h
  repeat' split at h
  all_goals first
    | (simp at h; done)
    | (simp only [Except.ok.injEq, Prod.mk.injEq] at h
       obtain ⟨_, hw⟩ := h
       subst hw
       rfl)

theorem delete_ctx (env : Env) (a : Nat) (w w' : World)
    (h : SharedTexture.delete env a w = .ok w') :
    w'.kInteropContext = w.kInteropContext := by
  unfold SharedTexture.delete at h
  simp only [bind, Except.bind] at h
  repeat' split at h
  all_goals first
    | (simp at h; done)
    | (simp only [Except.ok.injEq] at h
       subst h
       rfl)

theorem CreateSharedTexture_ctx (env : Env) (size : ivec2) (w w' : World) (r : Option Nat)
    (h : InteropContext.CreateSharedTexture env size w = .ok (r, w')) :
    w'.kInteropContext = w.kInteropContext := by
  cases hc : w.kInteropContext with
  | none =>
    simp [InteropContext.CreateSharedTexture, SharedTexture.make_unique, SharedTexture.ctor,
      InteropContext.Get, World.emit, hc, bind, Except.bind] at h
  | some c =>
    cases hd : c._device with
    | none =>
      simp [InteropContext.CreateSharedTexture, SharedTexture.make_unique, SharedTexture.ctor,
        InteropContext.Get, World.emit, hc, hd, bind, Except.bind] at h
    | some d =>
      obtain ⟨r1, w1, e, hk, _⟩ := CreateSharedTexture_spec env size w c d hc hd
      rw [e] at h
      simp only [Except.ok.injEq, Prod.mk.injEq] at h
      obtain ⟨_, hw⟩ := h
      subst hw
      rw [hk, hc]
theorem InitializeRenderTarget_ctx (env : Env) (size : ivec2) (p p' : DXGIRenderPath)
    (w w' : World) (r : Bool)
    (h : DXGIRenderPath.InitializeRenderTarget env size p w = .ok (r, p', w')) :
    w'.kInteropContext = w.kInteropContext := by
  unfold DXGIRenderPath.InitializeRenderTarget at h
  by_cases hcond : (p._sharedTexture.isNone || size != p._size) = true
  · rw [if_pos hcond] at h
    cases hg : InteropContext.Get env w with
    | error f => simp [hg, bind, Except.bind] at h
    | ok c =>
      cases hcst : InteropContext.CreateSharedTexture env size w with
      | error f => simp [hg, hcst, bind, Except.bind] at h
      | ok v =>
        obtain ⟨tex, w1⟩ := v
        have hk1 := CreateSharedTexture_ctx env size w w1 tex hcst
        cases hp : p._sharedTexture with
        | none =>
          simp only [hg, hcst, hp, bind, Except.bind, Except.ok.injEq, Prod.mk.injEq] at h
          obtain ⟨_, _, hw⟩ := h
          subst hw
          exact hk1
        | some a0 =>
          cases hdel : SharedTexture.delete env a0 w1 with
          | error f => simp [hg, hcst, hp, hdel, bind, Except.bind] at h
          | ok w2 =>
            simp only [hg, hcst, hp, hdel, bind, Except.bind, Except.ok.injEq,
              Prod.mk.injEq] at h
            obtain ⟨_, _, hw⟩ := h
            subst hw
            rw [delete_ctx env a0 w1 w2 hdel, hk1]
  · rw [if_neg hcond] at h
    simp only [Except.ok.injEq, Prod.mk.injEq] at h
    obtain ⟨_, _, hw⟩ := h
    subst hw
    rfl

theorem ProcessFrame_ctx (env : Env) (pts : LONGLONG) (p p' : DXGIRenderPath)
    (w w' : World) (r : Bool)
    (h : DXGIRenderPath.ProcessFrame env pts p w = .ok (r, p', w')) :
    w'.kInteropContext = w.kInteropContext := by
  unfold DXGIRenderPath.ProcessFrame at h
  simp only [bind, Except.bind] at h
  repeat' split at h
  all_goals first
    | (simp at h; done)
    | (simp only [Except.ok.injEq, Prod.mk.injEq] at h
       obtain ⟨_, _, hw⟩ := h
       subst hw
       rfl)
theorem StaticInitialize_some (env : Env) (w : World) (c : InteropContext)
    (hc : w.kInteropContext = some c) : InteropContext.StaticInitialize env w = w := by
  simp [InteropContext.StaticInitialize, hc]

theorem Initialize_invalid (env : Env) (attributes : Nat) (w : World) (c : InteropContext)
    (hc : w.kInteropContext = some c) (hv : c._isValid = false) :
    DXGIRenderPath.Initialize env attributes w = .ok (false, w) := by
  simp [DXGIRenderPath.Initialize, StaticInitialize_some env w c hc, InteropContext.Get, hc, hv,
    bind, Except.bind]

theorem Initialize_ctx (env : Env) (attributes : Nat) (w w' : World) (c : InteropContext)
    (r : Bool) (hc : w.kInteropContext = some c)
    (h : DXGIRenderPath.Initialize env attributes w = .ok (r, w')) :
    w'.kInteropContext = some c := by
  simp only [DXGIRenderPath.Initialize, StaticInitialize_some env w c hc, InteropContext.Get,
    hc, bind, Except.bind] at h
  repeat' split at h
  all_goals
    simp only [Except.ok.injEq, Prod.mk.injEq] at h
    obtain ⟨_, hw⟩ := h
    subst hw
    simp [World.emit, hc]

theorem lease_ctor_ctx (env : Env) (texture : Option Nat) (w w' : World)
    (l : DXGIRenderPathFrameLease)
    (h : DXGIRenderPathFrameLease.ctor env texture w = .ok (l, w')) :
    w'.kInteropContext = w.kInteropContext := by
  cases texture with
  | none =>
    simp only [DXGIRenderPathFrameLease.ctor, Except.ok.injEq, Prod.mk.injEq] at h
    obtain ⟨_, hw⟩ := h
    subst hw
    rfl
  | some a =>
    cases hl : SharedTexture.Lock env a w with
    | error f => simp [DXGIRenderPathFrameLease.ctor, hl, bind, Except.bind] at h
    | ok v =>
      obtain ⟨r, w1⟩ := v
      simp only [DXGIRenderPathFrameLease.ctor, hl, bind, Except.bind, Except.ok.injEq,
        Prod.mk.injEq] at h
      obtain ⟨_, hw⟩ := h
      subst hw
      exact Lock_ctx env a w w1 r hl

theorem lease_dtor_ctx (env : Env) (l : DXGIRenderPathFrameLease) (w w' : World)
    (h : l.dtor env w = .ok w') : w'.kInteropContext = w.kInteropContext := by
  cases hl : l._texture with
  | none =>
    simp only [DXGIRenderPathFrameLease.dtor, hl, Except.ok.injEq] at h
    subst h
    rfl
  | some a =>
    cases hlk : SharedTexture.IsLocked a w with
    | error f => simp [DXGIRenderPathFrameLease.dtor, hl, hlk, bind, Except.bind] at h
    | ok locked =>
      cases locked with
      | false =>
        simp only [DXGIRenderPathFrameLease.dtor, hl, hlk, bind, Except.bind,
          Bool.false_eq_true, if_false, Except.ok.injEq] at h
        subst h
        rfl
      | true =>
        cases hu : SharedTexture.Unlock env a w with
        | error f => simp [DXGIRenderPathFrameLease.dtor, hl, hlk, hu, bind, Except.bind] at h
        | ok v =>
          obtain ⟨r, w1⟩ := v
          simp only [DXGIRenderPathFrameLease.dtor, hl, hlk, hu, bind, Except.bind, if_true,
            Except.ok.injEq] at h
          subst h
          exact Unlock_ctx env a w w1 r hu

theorem Call_run_ctx (env : Env) (call : Call) (P P' : Process) (c : InteropContext)
    (r : Option Bool) (hc : P.world.kInteropContext = some c)
    (h : call.run env P = .ok (r, P')) : P'.world.kInteropContext = some c := by
  cases call with
  | StaticInitialize =>
    simp only [Call.run, StaticInitialize_some env P.world c hc, Except.ok.injEq,
      Prod.mk.injEq] at h
    obtain ⟨_, hP⟩ := h
    subst hP
    exact hc
  | Initialize s attributes =>
    cases hi : DXGIRenderPath.Initialize env attributes P.world with
    | error f => simp [Call.run, hi, bind, Except.bind] at h
    | ok v =>
      obtain ⟨r1, w1⟩ := v
      simp only [Call.run, hi, bind, Except.bind, Except.ok.injEq, Prod.mk.injEq] at h
      obtain ⟨_, hP⟩ := h
      subst hP
      exact Initialize_ctx env attributes P.world w1 c r1 hc hi
  | InitializeRenderTarget s size =>
    cases hi : DXGIRenderPath.InitializeRenderTarget env size (P.sessions s) P.world with
    | error f => simp [Call.run, hi, bind, Except.bind] at h
    | ok v =>
      obtain ⟨r1, p1, w1⟩ := v
      simp only [Call.run, hi, bind, Except.bind, Except.ok.injEq, Prod.mk.injEq] at h
      obtain ⟨_, hP⟩ := h
      subst hP
      exact (InitializeRenderTarget_ctx env size _ p1 P.world w1 r1 hi).trans hc
  | ProcessFrame s pts =>
    cases hi : DXGIRenderPath.ProcessFrame env pts (P.sessions s) P.world with
    | error f => simp [Call.run, hi, bind, Except.bind] at h
    | ok v =>
      obtain ⟨r1, p1, w1⟩ := v
      simp only [Call.run, hi, bind, Except.bind, Except.ok.injEq, Prod.mk.injEq] at h
      obtain ⟨_, hP⟩ := h
      subst hP
      exact (ProcessFrame_ctx env pts _ p1 P.world w1 r1 hi).trans hc
  | GetFrameLease s l =>
    cases hl : P.leases l with
    | some lease =>
      simp only [Call.run, hl, Except.ok.injEq, Prod.mk.injEq] at h
      obtain ⟨_, hP⟩ := h
      subst hP
      exact hc
    | none =>
      cases hi : DXGIRenderPath.GetFrameLease env (P.sessions s) P.world with
      | error f => simp [Call.run, hl, hi, bind, Except.bind] at h
      | ok v =>
        obtain ⟨l1, w1⟩ := v
        simp only [Call.run, hl, hi, bind, Except.bind, Except.ok.injEq, Prod.mk.injEq] at h
        obtain ⟨_, hP⟩ := h
        subst hP
        exact (lease_ctor_ctx env _ P.world w1 l1 hi).trans hc
  | IsValid l =>
    cases hl : P.leases l with
    | some lease =>
      cases hi : lease.IsValid P.world with
      | error f => simp [Call.run, hl, hi, bind, Except.bind] at h
      | ok v =>
        simp only [Call.run, hl, hi, bind, Except.bind, Except.ok.injEq, Prod.mk.injEq] at h
        obtain ⟨_, hP⟩ := h
        subst hP
        exact hc
    | none =>
      simp only [Call.run, hl, Except.ok.injEq, Prod.mk.injEq] at h
      obtain ⟨_, hP⟩ := h
      subst hP
      exact hc
  | ReleaseLease l =>
    cases hl : P.leases l with
    | some lease =>
      cases hi : lease.dtor env P.world with
      | error f => simp [Call.run, hl, hi, bind, Except.bind] at h
      | ok w1 =>
        simp only [Call.run, hl, hi, bind, Except.bind, Except.ok.injEq, Prod.mk.injEq] at h
        obtain ⟨_, hP⟩ := h
        subst hP
        exact (lease_dtor_ctx env lease P.world w1 hi).trans hc
    | none =>
      simp only [Call.run, hl, Except.ok.injEq, Prod.mk.injEq] at h
      obtain ⟨_, hP⟩ := h
      subst hP
      exact hc
  | CloseSession s =>
    cases hi : DXGIRenderPath.dtor env (P.sessions s) P.world with
    | error f => simp [Call.run, hi, bind, Except.bind] at h
    | ok w1 =>
      simp only [Call.run, hi, bind, Except.bind, Except.ok.injEq, Prod.mk.injEq] at h
      obtain ⟨_, hP⟩ := h
      subst hP
      have : w1.kInteropContext = P.world.kInteropContext := by
        unfold DXGIRenderPath.dtor at hi
        split at hi
        · exact delete_ctx env _ _ _ hi
        · cases hi; rfl
      exact this.trans hc

theorem runCalls_ctx (env : Env) (c : InteropContext) (calls : List Call) :
    ∀ (P P' : Process) (rs : List (Option Bool)), P.world.kInteropContext = some c →
      runCalls env calls P = .ok (rs, P') → P'.world.kInteropContext = some c := by
  induction calls with
  | nil =>
    intro P P' rs hc h
    simp only [runCalls, Except.ok.injEq, Prod.mk.injEq] at h
    obtain ⟨_, hP⟩ := h
    subst hP
    exact hc
  | cons call calls ih =>
    intro P P' rs hc h
    cases h1 : call.run env P with
    | error f => simp [runCalls, h1, bind, Except.bind] at h
    | ok v =>
      obtain ⟨r1, P1⟩ := v
      cases h2 : runCalls env calls P1 with
      | error f => simp [runCalls, h1, h2, bind, Except.bind] at h
      | ok v2 =>
        obtain ⟨rs2, P2⟩ := v2
        simp only [runCalls, h1, h2, bind, Except.bind, Except.ok.injEq, Prod.mk.injEq] at h
        obtain ⟨_, hP⟩ := h
        subst hP
        exact ih P1 P2 rs2 (Call_run_ctx env call P P1 c r1 hc h1) h2

/-- C9: once the singleton exists and is invalid it stays the same invalid object whatever
calls the process makes afterwards (any sessions, any leases): `StaticInitialize ( )` leaves
the world untouched, so no second context is constructed, and `Initialize` returns false
leaving the world untouched, so the attribute set receives no `SetUnknown`. -/
theorem C9_invalid_context_never_retried (env : Env) (c : InteropContext) (calls : List Call)
    (P P' : Process) (rs : List (Option Bool)) (hc : P.world.kInteropContext = some c)
    (hv : c._isValid = false) (hrun : runCalls env calls P = .ok (rs, P')) :
    P'.world.kInteropContext = some c ∧
      InteropContext.StaticInitialize env P'.world = P'.world ∧
      (∀ attributes, DXGIRenderPath.Initialize env attributes P'.world = .ok (false, P'.world)) ∧
      ∀ session attributes,
        (Call.Initialize session attributes).run env P' = .ok (some false, P') := by
  have hc' := runCalls_ctx env c calls P P' rs hc hrun
  refine ⟨hc', StaticInitialize_some env P'.world c hc',
    fun attributes => Initialize_invalid env attributes P'.world c hc' hv, ?_⟩
  intro session attributes
  simp [Call.run, Initialize_invalid env attributes P'.world c hc' hv, bind, Except.bind]
/-! ## C10: sessions on an invalid context -/

/-- C10, evaluated at the failing input: the Direct3D device cannot be created, so the first
`StaticInitialize ( )` builds an invalid context whose `_device` is null.  `Initialize` tests
`IsValid ( )` and returns false leaving the world untouched, as the claim says of every
dependent call; `InitializeRenderTarget`, which makes no such test, does not return false:
the `SharedTexture` constructor calls `CreateTexture2D` through the null device pointer. -/
theorem C10_null_device_InitializeRenderTarget_faults :
    (booted envNoDevice).kInteropContext =
        some { _device := none, _dxgiManager := some 100, _dxgiResetToken := 5,
               _interopHandle := 0, _isValid := false } ∧
      DXGIRenderPath.Initialize envNoDevice 9 (booted envNoDevice) =
        .ok (false, booted envNoDevice) ∧
      DXGIRenderPath.InitializeRenderTarget envNoDevice ⟨640, 480⟩ session0
        (booted envNoDevice) = .error .nullDeref :=
  ⟨rfl, rfl, rfl⟩

/-- Witness of C9: a process whose bridge open failed; after calls from two sessions the
context is still the one built first, and `Initialize` still returns false. -/
theorem C9_invalid_context_never_retried_witness :
    ∃ rs P', runCalls envNoBridge
        [.Initialize 0 9, .StaticInitialize, .InitializeRenderTarget 0 ⟨640, 480⟩,
          .ProcessFrame 0 40, .Initialize 1 9]
        { Process.fresh with world := booted envNoBridge } = .ok (rs, P') ∧
      rs = [some false, none, some false, some false, some false] ∧
      P'.world.kInteropContext = (booted envNoBridge).kInteropContext ∧
      InteropContext.StaticInitialize envNoBridge P'.world = P'.world ∧
      (∀ attributes,
        DXGIRenderPath.Initialize envNoBridge attributes P'.world = .ok (false, P'.world)) ∧
      ∀ session attributes,
        (Call.Initialize session attributes).run envNoBridge P' = .ok (some false, P') :=
  ⟨_, _, rfl, rfl,
    C9_invalid_context_never_retried envNoBridge
      { _device := some 200, _dxgiManager := some 100, _dxgiResetToken := 5,
        _interopHandle := 0, _isValid := false }
      [.Initialize 0 9, .StaticInitialize, .InitializeRenderTarget 0 ⟨640, 480⟩,
        .ProcessFrame 0 40, .Initialize 1 9]
      { Process.fresh with world := booted envNoBridge } _ _ rfl rfl rfl⟩

end AX.Video
